import Mathlib

set_option maxHeartbeats 1000000
set_option linter.unusedVariables false

/-
Verification of the libbpfgo program/attachment binding surface (prog.go).

The Go file is a thin cgo wrapper: every operation marshals its arguments,
performs one or more external calls (cgo calls into libbpf / helper wrappers,
`syscall.Open`, `net.InterfaceByName`, `filepath.Abs`), translates the results
into Go errors, and maintains small bookkeeping state (the program's
`pinnedPath`, the module's `links` list, the returned `BPFLink`'s fields).

The shallow embedding below keeps the Go-side logic exactly and treats every
external call's result as an explicit input (an oracle value or an oracle
function), since those results are produced outside this repository's code.
Pointers returned by C are modelled as `Option Nat` (`none` = NULL), Go's
`error` results as `Option GoError` (`none` = nil), and cgo's thread-local
`errno` values as `Int` (they are `syscall.Errno` values on the Go side).
-/

namespace LibbpfgoSpec

/-- Go error values as produced by this binding: a bare `syscall.Errno`,
a plain formatted error (`fmt.Errorf` with `%v` or no verb, which does not
wrap), or a formatted error wrapping an inner error (`fmt.Errorf` with `%w`). -/
inductive GoError where
  | errno (e : Int) : GoError
  | str (msg : String) : GoError
  | wrap (msg : String) (inner : GoError) : GoError
deriving Repr, DecidableEq

/-- Whether a Go error wraps `syscall.Errno n`, in the sense of `errors.Is`
unwrapping through the `%w` chain. -/
def GoError.wrapsErrno : GoError → Int → Bool
  | .errno e, n => e == n
  | .str _, _ => false
  | .wrap _ inner, n => inner.wrapsErrno n

/-- Lift of `GoError.wrapsErrno` to an operation's `error` result
(`none` models a nil Go error, which wraps nothing). -/
def optWrapsErrno : Option GoError → Int → Bool
  | none, _ => false
  | some e, n => e.wrapsErrno n

/-- The Go-side view of a `BPFProg`: the underlying C object is identified by
`progId` (standing for the `*C.struct_bpf_program` pointer), `name` models the
string returned by `C.bpf_program__name`, and `pinnedPath` is the binding's own
bookkeeping field (prog.go declares exactly `prog`, `module`, `pinnedPath`;
the module is passed separately here to break the Go pointer cycle). -/
structure BPFProg where
  progId : Nat
  name : String
  pinnedPath : String
deriving Repr, DecidableEq

/-- The link-type tags assigned in prog.go (constants of the repository's
`BPFLinkType`). -/
inductive LinkType where
  | Tracing
  | Cgroup
  | CgroupLegacy
  | XDP
  | Tracepoint
  | RawTracepoint
  | LSM
  | PerfEvent
  | Kprobe
  | Kretprobe
  | Netns
  | Iter
  | Uprobe
  | Uretprobe
  | USDT
deriving Repr, DecidableEq

/-- Legacy cgroup attachment metadata (`bpfLinkLegacy` in the source);
`attachType` is the numeric `BPFAttachType`. -/
structure BpfLinkLegacy where
  attachType : Int
  cgroupDir : String
deriving Repr, DecidableEq

/-- A `BPFLink` as built by prog.go: `link` is the C link pointer (`none` for
the fake legacy link), `prog` records the creating `BPFProg` by its identity
(the Go field holds the `*BPFProg` pointer), plus the link-type tag, event
name and optional legacy metadata. -/
structure BPFLink where
  link : Option Nat
  prog : Nat
  linkType : LinkType
  eventName : String
  legacy : Option BpfLinkLegacy
deriving Repr, DecidableEq

/-- The module bookkeeping state touched by prog.go: its `links` slice. -/
structure Module where
  links : List BPFLink
deriving Repr, DecidableEq

/-- Embeds `BPFProg.PinPath`: returns the bookkeeping field. -/
def PinPath (p : BPFProg) : String :=
  p.pinnedPath

/-- Embeds `BPFProg.Pin`. `absRes` is the result of `filepath.Abs(path)`
(`none` = error); `nativePin` gives `C.bpf_program__pin`'s return code for the
string passed to it. On native failure the error wraps `syscall.Errno(-retC)`;
on success `pinnedPath` is set to the absolute path. -/
def Pin (p : BPFProg) (path : String) (absRes : Option String)
    (nativePin : String → Int) : Option GoError × BPFProg :=
  match absRes with
  | none => (some (.str ("invalid path: " ++ path)), p)
  | some absPath =>
    let retC := nativePin absPath
    if retC < 0 then
      (some (.wrap ("failed to pin program " ++ p.name ++ " to " ++ path)
        (.errno (-retC))), p)
    else
      (none, { p with pinnedPath := absPath })

/-- Embeds `BPFProg.Unpin`. The native call `C.bpf_program__unpin` receives
the `path` argument itself (no `filepath.Abs` conversion); `nativeUnpin` gives
its return code for the string passed to it. On success `pinnedPath` is reset
to the empty string. -/
def Unpin (p : BPFProg) (path : String) (nativeUnpin : String → Int) :
    Option GoError × BPFProg :=
  let retC := nativeUnpin path
  if retC < 0 then
    (some (.wrap ("failed to unpin program " ++ p.name ++ " to " ++ path)
      (.errno (-retC))), p)
  else
    (none, { p with pinnedPath := "" })

/-- A sample program state used by concrete witnesses. -/
def sampleProg : BPFProg :=
  { progId := 1, name := "prog", pinnedPath := "" }

/-- A sample program state that already records a pinned path. -/
def samplePinnedProg : BPFProg :=
  { progId := 1, name := "prog", pinnedPath := "/sys/fs/bpf/a" }

/-- Embeds `getCgroupDirFD`: `openFd` and `openErr` are the results of
`syscall.Open(cgroupV2DirPath, O_DIRECTORY|O_RDONLY, 0)`. A negative fd
returns an error wrapping the open error; otherwise the fd is returned. -/
def getCgroupDirFD (cgroupV2DirPath : String) (openFd : Int) (openErr : GoError) :
    Except GoError Int :=
  if openFd < 0 then
    .error (.wrap ("failed to open cgroupv2 directory path " ++ cgroupV2DirPath)
      openErr)
  else
    .ok openFd

/-- Embeds `BPFProg.SetAutoload`; `retC` is the return code of
`C.bpf_program__set_autoload`. -/
def SetAutoload (p : BPFProg) (autoload : Bool) (retC : Int) : Option GoError :=
  if retC < 0 then
    some (.wrap "failed to set bpf program autoload" (.errno (-retC)))
  else
    none

/-- Embeds `BPFProg.SetAttachTarget`; `retC` is the return code of
`C.bpf_program__set_attach_target`. -/
def SetAttachTarget (p : BPFProg) (attachProgFD : Int) (attachFuncName : String)
    (retC : Int) : Option GoError :=
  if retC < 0 then
    some (.wrap ("failed to set attach target for program " ++ p.name ++ " " ++
      attachFuncName) (.errno (-retC)))
  else
    none

/-- Embeds `BPFProg.SetType`; `progType` is the numeric `BPFProgType` and
`retC` the return code of `C.bpf_program__set_type`. -/
def SetType (p : BPFProg) (progType : Int) (retC : Int) : Option GoError :=
  if retC < 0 then
    some (.wrap ("failed to set prog_type " ++ toString progType ++
      " for program " ++ p.name) (.errno (-retC)))
  else
    none

/-- Embeds `BPFProg.SetExpectedAttachType`; `attachType` is the numeric
`BPFAttachType` and `retC` the return code of
`C.bpf_program__set_expected_attach_type`. -/
def SetExpectedAttachType (p : BPFProg) (attachType : Int) (retC : Int) :
    Option GoError :=
  if retC < 0 then
    some (.wrap ("failed to set attach_type " ++ toString attachType ++
      " for program " ++ p.name) (.errno (-retC)))
  else
    none

/-- Embeds `BPFProg.AttachGenericFD`; `retC` is the return code of
`C.bpf_prog_attach`. -/
def AttachGenericFD (p : BPFProg) (targetFd : Int) (attachType : Int)
    (flags : Nat) (retC : Int) : Option GoError :=
  if retC < 0 then
    some (.wrap "failed to attach" (.errno (-retC)))
  else
    none

/-- Embeds `BPFProg.DetachGenericFD`; `retC` is the return code of
`C.bpf_prog_detach2`. -/
def DetachGenericFD (p : BPFProg) (targetFd : Int) (attachType : Int)
    (retC : Int) : Option GoError :=
  if retC < 0 then
    some (.wrap "failed to detach" (.errno (-retC)))
  else
    none

/-- Embeds `BPFProg.DetachCgroupLegacy`. `openFd`/`openErr` are the
`syscall.Open` results used by `getCgroupDirFD`; `retC` and `errnoVal` are the
two values of the cgo call `C.cgo_bpf_prog_detach_cgroup_legacy` (return code
and thread-local errno). Note the returned error wraps the cgo `errno` value,
not `syscall.Errno(-retC)`. -/
def DetachCgroupLegacy (p : BPFProg) (cgroupV2DirPath : String) (attachType : Int)
    (openFd : Int) (openErr : GoError) (retC errnoVal : Int) : Option GoError :=
  match getCgroupDirFD cgroupV2DirPath openFd openErr with
  | .error e => some e
  | .ok _ =>
    if retC < 0 then
      some (.wrap ("failed to detach (legacy) program " ++ p.name ++
        " from cgroupv2 " ++ cgroupV2DirPath) (.errno errnoVal))
    else
      none

/-- Embeds `BPFProg.AttachXDPLegacy`. `optsC`/`optsErrnoVal` model
`C.cgo_bpf_xdp_attach_opts_new`; `ifaceRes` is the `net.InterfaceByName`
result (interface index or error); `retC`/`errnoVal` are the two values of
`C.bpf_xdp_attach`. Note the returned error wraps the cgo `errno` value, not
`syscall.Errno(-retC)`. -/
def AttachXDPLegacy (p : BPFProg) (deviceName : String) (flag : Nat)
    (optsC : Option Nat) (optsErrnoVal : Int) (ifaceRes : Except GoError Int)
    (retC errnoVal : Int) : Option GoError :=
  match optsC with
  | none => some (.wrap "failed to create xdp attach opts:" (.errno optsErrnoVal))
  | some _ =>
    match ifaceRes with
    | .error err =>
      some (.wrap ("failed to find device by name " ++ deviceName) err)
    | .ok _ =>
      if retC < 0 then
        some (.wrap "failed to attach xdp" (.errno errnoVal))
      else
        none

/-- Embeds `BPFProg.DetachXDPLegacy`, shaped exactly like `AttachXDPLegacy`
but calling `C.bpf_xdp_detach`. -/
def DetachXDPLegacy (p : BPFProg) (deviceName : String) (flag : Nat)
    (optsC : Option Nat) (optsErrnoVal : Int) (ifaceRes : Except GoError Int)
    (retC errnoVal : Int) : Option GoError :=
  match optsC with
  | none => some (.wrap "failed to create xdp attach opts:" (.errno optsErrnoVal))
  | some _ =>
    match ifaceRes with
    | .error err =>
      some (.wrap ("failed to find device by name " ++ deviceName) err)
    | .ok _ =>
      if retC < 0 then
        some (.wrap "failed to detach xdp" (.errno errnoVal))
      else
        none

/-- The `RunOpts` structure of prog.go. Go byte slices are modelled as
`Option (List Nat)`: `none` is a nil slice, `some bs` a non-nil slice with
contents `bs` (so `some []` is Go's non-nil zero-length slice). `Duration` is
in nanoseconds. -/
structure RunOpts where
  DataIn : Option (List Nat)
  DataOut : Option (List Nat)
  DataSizeIn : Nat
  DataSizeOut : Nat
  CtxIn : Option (List Nat)
  CtxOut : Option (List Nat)
  CtxSizeIn : Nat
  CtxSizeOut : Nat
  RetVal : Nat
  Repeat : Int
  Duration : Nat
  Flags : Nat
  CPU : Nat
  BatchSize : Nat
deriving Repr, DecidableEq

/-- The C structure `bpf_test_run_opts` as seen by the Go side. A buffer field
is `none` for a NULL pointer and `some bs` for a non-NULL pointer whose bytes
(as read back by `C.GoBytes` with the corresponding size field) are `bs`.
`repeat_` stands for the C member `repeat`. -/
structure CTestRunOpts where
  data_in : Option (List Nat)
  data_out : Option (List Nat)
  ctx_in : Option (List Nat)
  ctx_out : Option (List Nat)
  data_size_in : Nat
  data_size_out : Nat
  ctx_size_in : Nat
  ctx_size_out : Nat
  retval : Nat
  repeat_ : Int
  duration : Nat
  flags : Nat
  cpu : Nat
  batch_size : Nat
deriving Repr, DecidableEq

/-- The pointer taken for one buffer in `runOptsToC`: a nil slice yields a
NULL pointer, a non-nil slice is indexed at element 0 (`&buf[0]`), which
panics (outer `none`) when the slice has length zero. -/
def bufPtr : Option (List Nat) → Option (Option (List Nat))
  | none => some none
  | some [] => none
  | some (b :: bs) => some (some (b :: bs))

/-- Embeds `runOptsToC`. The outer `none` models a Go panic (index out of
range on a non-nil zero-length buffer). `newOk`/`newErrnoVal` model the
outcome of `C.cgo_bpf_test_run_opts_new`; that helper is C code of the
repository outside the provided sources and is modelled, per the spec's
marshalling description, as populating a `bpf_test_run_opts` from its
arguments (with `retval` and `duration` zero-initialised), failing only by
returning NULL. -/
def runOptsToC (runOpts : Option RunOpts) (newOk : Bool) (newErrnoVal : Int) :
    Option (Except GoError (Option CTestRunOpts)) :=
  match runOpts with
  | none => some (.ok none)
  | some o =>
    match bufPtr o.DataIn, bufPtr o.DataOut, bufPtr o.CtxIn, bufPtr o.CtxOut with
    | some dIn, some dOut, some cIn, some cOut =>
      if newOk then
        some (.ok (some {
          data_in := dIn
          data_out := dOut
          ctx_in := cIn
          ctx_out := cOut
          data_size_in := if o.DataIn.isSome then o.DataSizeIn else 0
          data_size_out := if o.DataOut.isSome then o.DataSizeOut else 0
          ctx_size_in := if o.CtxIn.isSome then o.CtxSizeIn else 0
          ctx_size_out := if o.CtxOut.isSome then o.CtxSizeOut else 0
          retval := 0
          repeat_ := o.Repeat
          duration := 0
          flags := o.Flags
          cpu := o.CPU
          batch_size := o.BatchSize }))
      else
        some (.error (.wrap "failed to create bpf_test_run_opts"
          (.errno newErrnoVal)))
    | _, _, _, _ => none

/-- One buffer assignment in `runOptsFromC`: the Go field is overwritten with
the `C.GoBytes` contents only when the C pointer is non-NULL. -/
def setBuf (cur : Option (List Nat)) (post : Option (List Nat)) :
    Option (List Nat) :=
  match post with
  | some bs => some bs
  | none => cur

/-- Embeds `runOptsFromC`: buffer fields are copied back when their C pointer
is non-NULL; the scalar fields (`RetVal`, `Repeat`, `Duration`, `Flags`,
`CPU`, `BatchSize`) are overwritten unconditionally; the four size fields are
not written back. -/
def runOptsFromC (r : RunOpts) (optsC : Option CTestRunOpts) : RunOpts :=
  match optsC with
  | none => r
  | some c =>
    { r with
      DataIn := setBuf r.DataIn c.data_in
      DataOut := setBuf r.DataOut c.data_out
      CtxIn := setBuf r.CtxIn c.ctx_in
      CtxOut := setBuf r.CtxOut c.ctx_out
      RetVal := c.retval
      Repeat := c.repeat_
      Duration := c.duration
      Flags := c.flags
      CPU := c.cpu
      BatchSize := c.batch_size }

/-- Outcome of `BPFProg.Run`: a Go panic from the marshalling step, or a
normal return carrying the `error` result and the final contents of the
caller's `RunOpts`. -/
inductive RunOutcome where
  | panicked
  | done (err : Option GoError) (opts : Option RunOpts)
deriving Repr, DecidableEq

/-- The `error` component of a normal `Run` return. -/
def runError : RunOutcome → Option GoError
  | .panicked => none
  | .done e _ => e

/-- The final `RunOpts` contents of a normal `Run` return. -/
def runFinalOpts : RunOutcome → Option RunOpts
  | .panicked => none
  | .done _ o => o

/-- Embeds `BPFProg.Run`. `nativeRet` gives the return code of
`C.bpf_prog_test_run_opts` for the marshalled opts pointer, and `nativeMut`
the in-place mutation that call performs on a non-NULL `bpf_test_run_opts`
(in-place mutation cannot turn a NULL opts pointer into a non-NULL one). On a
negative return the error wraps `syscall.Errno(-retC)` and the caller's opts
are untouched; on success `runOptsFromC` writes the results back. The program
and module states are passed through untouched: `Run` never creates a link
nor changes any bookkeeping field. -/
def Run (p : BPFProg) (m : Module) (opts : Option RunOpts) (newOk : Bool)
    (newErrnoVal : Int) (nativeRet : Option CTestRunOpts → Int)
    (nativeMut : CTestRunOpts → CTestRunOpts) :
    RunOutcome × BPFProg × Module :=
  match runOptsToC opts newOk newErrnoVal with
  | none => (.panicked, p, m)
  | some (.error e) => (.done (some e) opts, p, m)
  | some (.ok optsC) =>
    let retC := nativeRet optsC
    if retC < 0 then
      (.done (some (.wrap "failed to run program" (.errno (-retC)))) opts, p, m)
    else
      (.done none (opts.map (fun o => runOptsFromC o (optsC.map nativeMut))),
        p, m)

/-- Go's `%v` rendering of a `[]uint64` slice, used in event names. -/
def goUintSlice (xs : List Nat) : String :=
  "[" ++ String.intercalate " " (xs.map toString) ++ "]"

/-- Character-wise replacement of `/` by `-`, the effect of
`strings.ReplaceAll(s, "/", "-")` for a single-character pattern. -/
def dashSlashes : List Char → List Char
  | [] => []
  | ch :: rest => (if ch = '/' then '-' else ch) :: dashSlashes rest

/-- The event-name fragment `strings.ReplaceAll(path[1:], "/", "-")` used for
cgroup and netns paths. (Go's `path[1:]` slices bytes and panics on an empty
string; paths reaching it start with a separator, and the difference does not
affect any claim proved here.) -/
def dashedPath (path : String) : String :=
  ⟨dashSlashes (path.data.drop 1)⟩

/-- Embeds `BPFProg.AttachGeneric`. `linkC`/`errnoVal` are the two values of
the cgo call `C.bpf_program__attach` (link pointer and errno). The returned
link is NOT appended to the module's links list. -/
def AttachGeneric (p : BPFProg) (m : Module) (linkC : Option Nat)
    (errnoVal : Int) : Except GoError BPFLink × Module :=
  match linkC with
  | none => (.error (.wrap "failed to attach program" (.errno errnoVal)), m)
  | some lc =>
    (.ok { link := some lc, prog := p.progId, linkType := .Tracing,
           eventName := "tracing-" ++ p.name, legacy := none }, m)

/-- Embeds `BPFProg.AttachCgroup`. `openFd`/`openErr` are the `syscall.Open`
results used by `getCgroupDirFD`; `linkC`/`errnoVal` the two values of
`C.bpf_program__attach_cgroup`. On success the link is appended to the
module's links. -/
def AttachCgroup (p : BPFProg) (m : Module) (cgroupV2DirPath : String)
    (openFd : Int) (openErr : GoError) (linkC : Option Nat) (errnoVal : Int) :
    Except GoError BPFLink × Module :=
  match getCgroupDirFD cgroupV2DirPath openFd openErr with
  | .error e => (.error e, m)
  | .ok _ =>
    match linkC with
    | none =>
      (.error (.wrap ("failed to attach cgroup on cgroupv2 " ++
        cgroupV2DirPath ++ " to program " ++ p.name) (.errno errnoVal)), m)
    | some lc =>
      let bpfLink : BPFLink :=
        { link := some lc, prog := p.progId, linkType := .Cgroup,
          eventName := "cgroup-" ++ p.name ++ "-" ++ dashedPath cgroupV2DirPath,
          legacy := none }
      (.ok bpfLink, { m with links := m.links ++ [bpfLink] })

/-- Embeds `BPFProg.AttachCgroupLegacy`: first tries `AttachCgroup` and, only
if that fails, retries with the legacy fd-based attach
(`C.cgo_bpf_prog_attach_cgroup_legacy`, whose two values are
`legacyRet`/`legacyErrnoVal`). The legacy path builds a fake link (NULL C
link, `CgroupLegacy` tag, legacy metadata) and does NOT append it to the
module's links. -/
def AttachCgroupLegacy (p : BPFProg) (m : Module) (cgroupV2DirPath : String)
    (attachType : Int) (openFd1 : Int) (openErr1 : GoError) (linkC : Option Nat)
    (errnoVal : Int) (openFd2 : Int) (openErr2 : GoError)
    (legacyRet legacyErrnoVal : Int) : Except GoError BPFLink × Module :=
  match AttachCgroup p m cgroupV2DirPath openFd1 openErr1 linkC errnoVal with
  | (.ok bpfLink, m2) => (.ok bpfLink, m2)
  | (.error _, m2) =>
    match getCgroupDirFD cgroupV2DirPath openFd2 openErr2 with
    | .error e => (.error e, m2)
    | .ok _ =>
      if legacyRet < 0 then
        (.error (.wrap ("failed to attach (legacy) program " ++ p.name ++
          " to cgroupv2 " ++ cgroupV2DirPath) (.errno legacyErrnoVal)), m2)
      else
        let fakeBpfLink : BPFLink :=
          { link := none, prog := p.progId, linkType := .CgroupLegacy,
            eventName := "cgroup-" ++ p.name ++ "-" ++
              dashedPath cgroupV2DirPath,
            legacy := some { attachType := attachType,
                             cgroupDir := cgroupV2DirPath } }
        (.ok fakeBpfLink, m2)

/-- Embeds `BPFProg.AttachXDP`. `ifaceRes` is the `net.InterfaceByName` result
(interface index or error); `linkC`/`errnoVal` the two values of
`C.bpf_program__attach_xdp`. On success the link is appended to the module's
links. -/
def AttachXDP (p : BPFProg) (m : Module) (deviceName : String)
    (ifaceRes : Except GoError Int) (linkC : Option Nat) (errnoVal : Int) :
    Except GoError BPFLink × Module :=
  match ifaceRes with
  | .error err =>
    (.error (.wrap ("failed to find device by name " ++ deviceName) err), m)
  | .ok _ =>
    match linkC with
    | none =>
      (.error (.wrap ("failed to attach xdp on device " ++ deviceName ++
        " to program " ++ p.name) (.errno errnoVal)), m)
    | some lc =>
      let bpfLink : BPFLink :=
        { link := some lc, prog := p.progId, linkType := .XDP,
          eventName := "xdp-" ++ p.name ++ "-" ++ deviceName, legacy := none }
      (.ok bpfLink, { m with links := m.links ++ [bpfLink] })

/-- Embeds `BPFProg.AttachTracepoint`; `linkC`/`errnoVal` are the two values
of `C.bpf_program__attach_tracepoint`. On success the link is appended to the
module's links. -/
def AttachTracepoint (p : BPFProg) (m : Module) (category name : String)
    (linkC : Option Nat) (errnoVal : Int) : Except GoError BPFLink × Module :=
  match linkC with
  | none =>
    (.error (.wrap ("failed to attach tracepoint " ++ name ++ " to program " ++
      p.name) (.errno errnoVal)), m)
  | some lc =>
    let bpfLink : BPFLink :=
      { link := some lc, prog := p.progId, linkType := .Tracepoint,
        eventName := name, legacy := none }
    (.ok bpfLink, { m with links := m.links ++ [bpfLink] })

/-- Embeds `BPFProg.AttachRawTracepoint`; `linkC`/`errnoVal` are the two
values of `C.bpf_program__attach_raw_tracepoint`. On success the link is
appended to the module's links. -/
def AttachRawTracepoint (p : BPFProg) (m : Module) (tpEvent : String)
    (linkC : Option Nat) (errnoVal : Int) : Except GoError BPFLink × Module :=
  match linkC with
  | none =>
    (.error (.wrap ("failed to attach raw tracepoint " ++ tpEvent ++
      " to program " ++ p.name) (.errno errnoVal)), m)
  | some lc =>
    let bpfLink : BPFLink :=
      { link := some lc, prog := p.progId, linkType := .RawTracepoint,
        eventName := tpEvent, legacy := none }
    (.ok bpfLink, { m with links := m.links ++ [bpfLink] })

/-- Embeds `BPFProg.AttachLSM`; `linkC`/`errnoVal` are the two values of
`C.bpf_program__attach_lsm`. The built link sets no event name (Go zero
value). On success the link is appended to the module's links. -/
def AttachLSM (p : BPFProg) (m : Module) (linkC : Option Nat)
    (errnoVal : Int) : Except GoError BPFLink × Module :=
  match linkC with
  | none =>
    (.error (.wrap ("failed to attach lsm to program " ++ p.name)
      (.errno errnoVal)), m)
  | some lc =>
    let bpfLink : BPFLink :=
      { link := some lc, prog := p.progId, linkType := .LSM,
        eventName := "", legacy := none }
    (.ok bpfLink, { m with links := m.links ++ [bpfLink] })

/-- Embeds `BPFProg.AttachPerfEvent`; `linkC`/`errnoVal` are the two values of
`C.bpf_program__attach_perf_event`. The built link sets no event name (Go zero
value). On success the link is appended to the module's links. -/
def AttachPerfEvent (p : BPFProg) (m : Module) (fd : Int) (linkC : Option Nat)
    (errnoVal : Int) : Except GoError BPFLink × Module :=
  match linkC with
  | none =>
    (.error (.wrap ("failed to attach perf event to program " ++ p.name)
      (.errno errnoVal)), m)
  | some lc =>
    let bpfLink : BPFLink :=
      { link := some lc, prog := p.progId, linkType := .PerfEvent,
        eventName := "", legacy := none }
    (.ok bpfLink, { m with links := m.links ++ [bpfLink] })

/-- The `attachTo` argument record of `attachKprobeCommon`. -/
structure attachTo where
  symName : String
  symAddr : Nat
  isRet : Bool
deriving Repr, DecidableEq

/-- Embeds `attachKprobeCommon`. `optsC`/`optsErrnoVal` model
`C.cgo_bpf_kprobe_opts_new`; `linkC`/`linkErrnoVal` the two values of
`C.bpf_program__attach_kprobe_opts`. Both error paths format the errno with
`%v`, so neither returned error wraps it. The link type is `Kretprobe` when
`isRet` and `Kprobe` otherwise; the event name is the symbol name, or the
decimal symbol address when the name is empty. On success the link is
appended to the module's links. -/
def attachKprobeCommon (p : BPFProg) (m : Module) (a : attachTo)
    (optsC : Option Nat) (optsErrnoVal : Int) (linkC : Option Nat)
    (linkErrnoVal : Int) : Except GoError BPFLink × Module :=
  match optsC with
  | none =>
    (.error (.str ("failed to create kprobe_opts of " ++ a.symName)), m)
  | some _ =>
    match linkC with
    | none => (.error (.str ("failed to attach to " ++ a.symName)), m)
    | some lc =>
      let linkType := if a.isRet then LinkType.Kretprobe else LinkType.Kprobe
      let eventName := if a.symName == "" then toString a.symAddr else a.symName
      let bpfLink : BPFLink :=
        { link := some lc, prog := p.progId, linkType := linkType,
          eventName := eventName, legacy := none }
      (.ok bpfLink, { m with links := m.links ++ [bpfLink] })

/-- Embeds `BPFProg.AttachKprobe` (symbol name, entry). -/
def AttachKprobe (p : BPFProg) (m : Module) (symbol : String)
    (optsC : Option Nat) (optsErrnoVal : Int) (linkC : Option Nat)
    (linkErrnoVal : Int) : Except GoError BPFLink × Module :=
  attachKprobeCommon p m { symName := symbol, symAddr := 0, isRet := false }
    optsC optsErrnoVal linkC linkErrnoVal

/-- Embeds `BPFProg.AttachKretprobe` (symbol name, return). -/
def AttachKretprobe (p : BPFProg) (m : Module) (symbol : String)
    (optsC : Option Nat) (optsErrnoVal : Int) (linkC : Option Nat)
    (linkErrnoVal : Int) : Except GoError BPFLink × Module :=
  attachKprobeCommon p m { symName := symbol, symAddr := 0, isRet := true }
    optsC optsErrnoVal linkC linkErrnoVal

/-- Embeds `BPFProg.AttachKprobeOffset` (address, entry). -/
def AttachKprobeOffset (p : BPFProg) (m : Module) (offset : Nat)
    (optsC : Option Nat) (optsErrnoVal : Int) (linkC : Option Nat)
    (linkErrnoVal : Int) : Except GoError BPFLink × Module :=
  attachKprobeCommon p m { symName := "", symAddr := offset, isRet := false }
    optsC optsErrnoVal linkC linkErrnoVal

/-- Embeds `BPFProg.AttachKretprobeOnOffset` (address, return). -/
def AttachKretprobeOnOffset (p : BPFProg) (m : Module) (offset : Nat)
    (optsC : Option Nat) (optsErrnoVal : Int) (linkC : Option Nat)
    (linkErrnoVal : Int) : Except GoError BPFLink × Module :=
  attachKprobeCommon p m { symName := "", symAddr := offset, isRet := true }
    optsC optsErrnoVal linkC linkErrnoVal

/-- Embeds `BPFProg.AttachNetns`. `openFd`/`openErr` are the `syscall.Open`
results; `linkC`/`errnoVal` the two values of `C.bpf_program__attach_netns`.
On success the link is appended to the module's links. -/
def AttachNetns (p : BPFProg) (m : Module) (networkNamespacePath : String)
    (openFd : Int) (openErr : GoError) (linkC : Option Nat) (errnoVal : Int) :
    Except GoError BPFLink × Module :=
  if openFd < 0 then
    (.error (.wrap ("failed to open network namespace path " ++
      networkNamespacePath) openErr), m)
  else
    match linkC with
    | none =>
      (.error (.wrap ("failed to attach network namespace on " ++
        networkNamespacePath ++ " to program " ++ p.name) (.errno errnoVal)), m)
    | some lc =>
      let bpfLink : BPFLink :=
        { link := some lc, prog := p.progId, linkType := .Netns,
          eventName := "netns-" ++ p.name ++ "-" ++
            dashedPath networkNamespacePath,
          legacy := none }
      (.ok bpfLink, { m with links := m.links ++ [bpfLink] })

/-- The `IterOpts` structure of prog.go. -/
structure IterOpts where
  MapFd : Int
  CgroupIterOrder : Nat
  CgroupFd : Int
  CgroupId : Nat
  Tid : Int
  Pid : Int
  PidFd : Int
deriving Repr, DecidableEq

/-- Embeds `BPFProg.AttachIter`. `optsC`/`optsErrnoVal` model
`C.cgo_bpf_iter_attach_opts_new`; `linkC`/`errnoVal` the two values of
`C.bpf_program__attach_iter`. On success the link is appended to the module's
links. -/
def AttachIter (p : BPFProg) (m : Module) (opts : IterOpts)
    (optsC : Option Nat) (optsErrnoVal : Int) (linkC : Option Nat)
    (errnoVal : Int) : Except GoError BPFLink × Module :=
  match optsC with
  | none =>
    (.error (.wrap ("failed to create iter_attach_opts to program " ++ p.name)
      (.errno optsErrnoVal)), m)
  | some _ =>
    match linkC with
    | none =>
      (.error (.wrap ("failed to attach iter to program " ++ p.name)
        (.errno errnoVal)), m)
    | some lc =>
      let bpfLink : BPFLink :=
        { link := some lc, prog := p.progId, linkType := .Iter,
          eventName := "iter-" ++ p.name ++ "-" ++ toString opts.MapFd,
          legacy := none }
      (.ok bpfLink, { m with links := m.links ++ [bpfLink] })

/-- Embeds `doAttachUprobe`. `linkC`/`errnoVal` are the two values of
`C.bpf_program__attach_uprobe`. The link type is `Uretprobe` when
`isUretprobe` and `Uprobe` otherwise; the event name is `path:pid:offset`.
The returned link is NOT appended to the module's links. -/
def doAttachUprobe (prog : BPFProg) (m : Module) (isUretprobe : Bool)
    (pid : Int) (path : String) (offset : Nat) (linkC : Option Nat)
    (errnoVal : Int) : Except GoError BPFLink × Module :=
  match linkC with
  | none =>
    (.error (.wrap ("failed to attach u(ret)probe to program " ++ path ++
      ":" ++ toString offset ++ " with pid " ++ toString pid)
      (.errno errnoVal)), m)
  | some lc =>
    let upType := if isUretprobe then LinkType.Uretprobe else LinkType.Uprobe
    (.ok { link := some lc, prog := prog.progId, linkType := upType,
           eventName := path ++ ":" ++ toString pid ++ ":" ++ toString offset,
           legacy := none }, m)

/-- Embeds `BPFProg.AttachUprobe`: converts `path` with `filepath.Abs`
(result `absRes`, `none` = error returned unwrapped) and delegates to
`doAttachUprobe` with `isUretprobe = false`. -/
def AttachUprobe (p : BPFProg) (m : Module) (pid : Int) (path : String)
    (offset : Nat) (absRes : Option String) (absErr : GoError)
    (linkC : Option Nat) (errnoVal : Int) : Except GoError BPFLink × Module :=
  match absRes with
  | none => (.error absErr, m)
  | some absPath => doAttachUprobe p m false pid absPath offset linkC errnoVal

/-- Embeds `BPFProg.AttachURetprobe`: like `AttachUprobe` with
`isUretprobe = true`. -/
def AttachURetprobe (p : BPFProg) (m : Module) (pid : Int) (path : String)
    (offset : Nat) (absRes : Option String) (absErr : GoError)
    (linkC : Option Nat) (errnoVal : Int) : Except GoError BPFLink × Module :=
  match absRes with
  | none => (.error absErr, m)
  | some absPath => doAttachUprobe p m true pid absPath offset linkC errnoVal

/-- Embeds `doAttachUprobeMulti`. `linkC`/`errnoVal` are the two values of
`C.cgo_bpf_program__attach_uprobe_multi`. The event name is
`path:pid:offsets` with the offsets rendered as Go prints a `[]uint64`.
The returned link is NOT appended to the module's links. -/
def doAttachUprobeMulti (prog : BPFProg) (m : Module) (isUretprobe : Bool)
    (pid : Int) (path : String) (offsets cookies : List Nat)
    (linkC : Option Nat) (errnoVal : Int) : Except GoError BPFLink × Module :=
  match linkC with
  | none =>
    (.error (.wrap ("failed to attach u(ret)probe multi to program " ++ path ++
      ":" ++ goUintSlice offsets ++ " with pid " ++ toString pid)
      (.errno errnoVal)), m)
  | some lc =>
    let upType := if isUretprobe then LinkType.Uretprobe else LinkType.Uprobe
    (.ok { link := some lc, prog := prog.progId, linkType := upType,
           eventName := path ++ ":" ++ toString pid ++ ":" ++
             goUintSlice offsets,
           legacy := none }, m)

/-- Embeds `BPFProg.AttachUprobeMulti`: `filepath.Abs` then
`doAttachUprobeMulti` with `isUretprobe = false`. -/
def AttachUprobeMulti (p : BPFProg) (m : Module) (pid : Int) (path : String)
    (offsets cookies : List Nat) (absRes : Option String) (absErr : GoError)
    (linkC : Option Nat) (errnoVal : Int) : Except GoError BPFLink × Module :=
  match absRes with
  | none => (.error absErr, m)
  | some absPath =>
    doAttachUprobeMulti p m false pid absPath offsets cookies linkC errnoVal

/-- Embeds `BPFProg.AttachURetprobeMulti`: `filepath.Abs` then
`doAttachUprobeMulti` with `isUretprobe = true`. -/
def AttachURetprobeMulti (p : BPFProg) (m : Module) (pid : Int) (path : String)
    (offsets cookies : List Nat) (absRes : Option String) (absErr : GoError)
    (linkC : Option Nat) (errnoVal : Int) : Except GoError BPFLink × Module :=
  match absRes with
  | none => (.error absErr, m)
  | some absPath =>
    doAttachUprobeMulti p m true pid absPath offsets cookies linkC errnoVal

/-- Embeds `BPFProg.AttachUSDT`. `linkC`/`errnoVal` are the two values of
`C.bpf_program__attach_usdt`. The returned link is NOT appended to the
module's links. -/
def AttachUSDT (p : BPFProg) (m : Module) (pid : Int)
    (binaryPath provider name : String) (linkC : Option Nat) (errnoVal : Int) :
    Except GoError BPFLink × Module :=
  match linkC with
  | none =>
    (.error (.wrap ("failed to attach USDT probe to marker " ++ provider ++
      ":" ++ name ++ " in program " ++ binaryPath ++ " with pid " ++
      toString pid) (.errno errnoVal)), m)
  | some lc =>
    (.ok { link := some lc, prog := p.progId, linkType := .USDT,
           eventName := binaryPath ++ ":" ++ toString pid ++ ":" ++ provider ++
             ":" ++ name,
           legacy := none }, m)

/-- Whether an attach result is an error. -/
def isErr : Except GoError BPFLink → Bool
  | .error _ => true
  | .ok _ => false

/-- A sample module state with no recorded links, used by concrete
witnesses. -/
def sampleModule : Module :=
  { links := [] }

/-- Sample test-run options whose buffers are all nil, used by concrete
witnesses. -/
def sampleRunOptsNil : RunOpts :=
  { DataIn := none, DataOut := none, DataSizeIn := 0, DataSizeOut := 0,
    CtxIn := none, CtxOut := none, CtxSizeIn := 0, CtxSizeOut := 0,
    RetVal := 0, Repeat := 0, Duration := 0, Flags := 0, CPU := 0,
    BatchSize := 0 }

/-- Sample test-run options with two non-nil non-empty buffers, used by
concrete witnesses. -/
def sampleRunOptsBuf : RunOpts :=
  { DataIn := some [1], DataOut := some [2], DataSizeIn := 1,
    DataSizeOut := 1, CtxIn := none, CtxOut := none, CtxSizeIn := 0,
    CtxSizeOut := 0, RetVal := 0, Repeat := 1, Duration := 0, Flags := 0,
    CPU := 0, BatchSize := 0 }

/-- The C structure `runOptsToC` builds from `sampleRunOptsBuf`, used by
concrete witnesses. -/
def sampleCOpts : CTestRunOpts :=
  { data_in := some [1], data_out := some [2], ctx_in := none,
    ctx_out := none, data_size_in := 1, data_size_out := 1, ctx_size_in := 0,
    ctx_size_out := 0, retval := 0, repeat_ := 1, duration := 0, flags := 0,
    cpu := 0, batch_size := 0 }

/-- A sample in-place mutation of the C test-run structure: the native call
fills the result scalars and rewrites the output buffer contents, leaving the
buffer pointers alone. Used by concrete witnesses. -/
def sampleMut (c : CTestRunOpts) : CTestRunOpts :=
  { c with retval := 7, duration := 3,
           data_out := match c.data_out with
                       | some _ => some [9]
                       | none => none }

/-- The link `AttachCgroup sampleProg sampleModule "/sys" 3 oe (some 7) 0`
builds, used by concrete witnesses. -/
def sampleCgroupLink : BPFLink :=
  { link := some 7, prog := 1, linkType := .Cgroup,
    eventName := "cgroup-prog-sys", legacy := none }

/-- The link `AttachGeneric sampleProg sampleModule (some 5) 0` builds, used
by concrete witnesses. -/
def sampleGenericLink : BPFLink :=
  { link := some 5, prog := 1, linkType := .Tracing,
    eventName := "tracing-prog", legacy := none }

/-- The link `AttachKprobe sampleProg sampleModule "sfunc" (some 1) 0 (some 3) 0`
builds, used by concrete witnesses. -/
def sampleKprobeLink : BPFLink :=
  { link := some 3, prog := 1, linkType := .Kprobe,
    eventName := "sfunc", legacy := none }

/-- The fake link the legacy path of `AttachCgroupLegacy` builds for
`sampleProg` on `"/sys"` with attach type 1, used by concrete witnesses. -/
def sampleLegacyLink : BPFLink :=
  { link := none, prog := 1, linkType := .CgroupLegacy,
    eventName := "cgroup-prog-sys",
    legacy := some { attachType := 1, cgroupDir := "/sys" } }

/-- Claim C4: if `Pin(path)` succeeds, `PinPath()` subsequently returns the
result of `filepath.Abs(path)`, and if `Unpin` succeeds, `PinPath()`
subsequently returns the empty string. -/
theorem claim_C4_pin_path_bookkeeping
    (p : BPFProg) (path absPath : String) (f g : String → Int) :
    (0 ≤ f absPath → PinPath (Pin p path (some absPath) f).2 = absPath) ∧
    (0 ≤ g path → PinPath (Unpin p path g).2 = "") := by
  constructor
  · intro h
    simp only [Pin, PinPath]
    rw [if_neg (not_lt.mpr h)]
  · intro h
    simp only [Unpin, PinPath]
    rw [if_neg (not_lt.mpr h)]

/-- Witness for C4 at concrete inputs. -/
theorem claim_C4_pin_path_bookkeeping_witness :
    PinPath (Pin sampleProg "/x" (some "/x") (fun _ => 0)).2 = "/x" ∧
    PinPath (Unpin samplePinnedProg "/x" (fun _ => 0)).2 = "" := by
  exact ⟨(claim_C4_pin_path_bookkeeping sampleProg "/x" "/x"
            (fun _ => 0) (fun _ => 0)).1 (by decide),
         (claim_C4_pin_path_bookkeeping samplePinnedProg "/x" "/x"
            (fun _ => 0) (fun _ => 0)).2 (by decide)⟩

/-- Claim C9: whenever `Pin` returns an error (whether from `filepath.Abs` or
from a negative native return), and whenever `Unpin` returns an error, the
program's `pinnedPath` bookkeeping field is left unchanged (in fact the whole
program state is). -/
theorem claim_C9_pin_unpin_atomic
    (p : BPFProg) (path : String) (absRes : Option String) (f g : String → Int) :
    ((Pin p path absRes f).1 ≠ none → (Pin p path absRes f).2 = p) ∧
    ((Unpin p path g).1 ≠ none → (Unpin p path g).2 = p) := by
  constructor
  · intro _h
    match absRes with
    | none => rfl
    | some absPath =>
      simp only [Pin] at _h ⊢
      by_cases hc : f absPath < 0
      · rw [if_pos hc]
      · rw [if_neg hc] at _h ⊢
        exact absurd rfl _h
  · intro _h
    simp only [Unpin] at _h ⊢
    by_cases hc : g path < 0
    · rw [if_pos hc]
    · rw [if_neg hc] at _h
      exact absurd rfl _h

/-- Witness for C9 at concrete inputs: a failing `filepath.Abs`, a failing
native pin, and a failing native unpin all leave the program unchanged. -/
theorem claim_C9_pin_unpin_atomic_witness :
    (Pin samplePinnedProg "/x" none (fun _ => 0)).2 = samplePinnedProg ∧
    (Pin samplePinnedProg "/x" (some "/x") (fun _ => -1)).2 = samplePinnedProg ∧
    (Unpin samplePinnedProg "/x" (fun _ => -1)).2 = samplePinnedProg := by
  refine ⟨(claim_C9_pin_unpin_atomic samplePinnedProg "/x" none
            (fun _ => 0) (fun _ => 0)).1 (by decide),
          (claim_C9_pin_unpin_atomic samplePinnedProg "/x" (some "/x")
            (fun _ => -1) (fun _ => 0)).1 (by decide),
          (claim_C9_pin_unpin_atomic samplePinnedProg "/x" none
            (fun _ => 0) (fun _ => -1)).2 (by decide)⟩

/-- Claim C10: `Unpin` consults the native call only at the verbatim `path`
argument (no absolute-path conversion, unlike `Pin`, which consults it only at
the `filepath.Abs` result), and on success it sets `pinnedPath` to the empty
string for every argument value, independently of the previously recorded
path. -/
theorem claim_C10_unpin_verbatim
    (p : BPFProg) (path : String) (f g : String → Int) :
    (f path = g path → Unpin p path f = Unpin p path g) ∧
    (0 ≤ f path → (Unpin p path f).2.pinnedPath = "") ∧
    (∀ absPath, f absPath = g absPath →
      Pin p path (some absPath) f = Pin p path (some absPath) g) := by
  refine ⟨?_, ?_, ?_⟩
  · intro h
    simp only [Unpin, h]
  · intro h
    simp only [Unpin]
    rw [if_neg (not_lt.mpr h)]
  · intro absPath h
    simp only [Pin, h]

/-- Witness for C10 at concrete inputs: two native functions agreeing at the
argument give identical results, and a successful unpin with an argument
different from the recorded pinned path still clears `pinnedPath`. -/
theorem claim_C10_unpin_verbatim_witness :
    (Unpin samplePinnedProg "/y" (fun _ => 0) =
      Unpin samplePinnedProg "/y" (fun s => if s = "/y" then 0 else -1)) ∧
    (Unpin samplePinnedProg "/y" (fun _ => 0)).2.pinnedPath = "" := by
  refine ⟨(claim_C10_unpin_verbatim samplePinnedProg "/y" (fun _ => 0)
            (fun s => if s = "/y" then 0 else -1)).1 (by decide),
          (claim_C10_unpin_verbatim samplePinnedProg "/y" (fun _ => 0)
            (fun s => if s = "/y" then 0 else -1)).2.1 (by decide)⟩

/-- An error built by `fmt.Errorf` with `%w` around `syscall.Errno n` wraps
`syscall.Errno n`. -/
theorem optWrapsErrno_wrap (msg : String) (n : Int) :
    optWrapsErrno (some (.wrap msg (.errno n))) n = true := by
  simp [optWrapsErrno, GoError.wrapsErrno]

/-- A NULL buffer pointer comes only from a nil Go slice. -/
theorem bufPtr_some_none {x : Option (List Nat)} (h : bufPtr x = some none) :
    x = none := by
  cases x with
  | none => rfl
  | some bs =>
    cases bs with
    | nil => simp [bufPtr] at h
    | cons b t => simp [bufPtr] at h

/-- Taking a buffer pointer succeeds exactly when every non-nil slice has at
least one element. -/
theorem bufPtr_ne_none_iff (x : Option (List Nat)) :
    bufPtr x ≠ none ↔ ∀ bs, x = some bs → 1 ≤ bs.length := by
  cases x with
  | none => simp [bufPtr]
  | some bs =>
    cases bs with
    | nil => simp [bufPtr]
    | cons b t => simp [bufPtr]

/-- Inversion of a successful marshalling: the C structure's buffer pointers
are exactly the ones taken from the Go slices. -/
theorem runOptsToC_inv (o : RunOpts) (k : Bool) (ev : Int) (c : CTestRunOpts)
    (h : runOptsToC (some o) k ev = some (.ok (some c))) :
    bufPtr o.DataIn = some c.data_in ∧ bufPtr o.DataOut = some c.data_out ∧
    bufPtr o.CtxIn = some c.ctx_in ∧ bufPtr o.CtxOut = some c.ctx_out := by
  rcases h1 : bufPtr o.DataIn with _ | d1
  · simp [runOptsToC, h1] at h
  rcases h2 : bufPtr o.DataOut with _ | d2
  · simp [runOptsToC, h1, h2] at h
  rcases h3 : bufPtr o.CtxIn with _ | d3
  · simp [runOptsToC, h1, h2, h3] at h
  rcases h4 : bufPtr o.CtxOut with _ | d4
  · simp [runOptsToC, h1, h2, h3, h4] at h
  cases k
  · simp [runOptsToC, h1, h2, h3, h4] at h
  · simp [runOptsToC, h1, h2, h3, h4] at h
    subst h
    exact ⟨rfl, rfl, rfl, rfl⟩

/-- A write-back step overwrites the Go buffer with the C pointer's value
whenever the native call preserved the NULL-ness of the pointer taken at
marshalling time. -/
theorem setBuf_writes (cur pre post : Option (List Nat))
    (h1 : bufPtr cur = some pre) (h2 : post.isSome = pre.isSome) :
    setBuf cur post = post := by
  cases post with
  | some bs => rfl
  | none =>
    have hp : pre = none := by
      cases pre with
      | none => rfl
      | some x => simp at h2
    subst hp
    have hcur := bufPtr_some_none h1
    simp [setBuf, hcur]

/-- Claim C6 (confirmed): `Run` executes the program without attaching it:
for every input — success, native failure, marshalling failure or panic — the
program state (hence `pinnedPath`) and the module state (hence the `links`
list) are returned unchanged; no `BPFLink` is created. -/
theorem claim_C6_run_no_attach
    (p : BPFProg) (m : Module) (opts : Option RunOpts) (k : Bool) (ev : Int)
    (nr : Option CTestRunOpts → Int) (mu : CTestRunOpts → CTestRunOpts) :
    (Run p m opts k ev nr mu).2.1 = p ∧ (Run p m opts k ev nr mu).2.2 = m := by
  rcases h : runOptsToC opts k ev with _ | x
  · simp [Run, h]
  · rcases x with e | oc
    · simp [Run, h]
    · by_cases hc : nr oc < 0
      · simp [Run, h, hc]
      · simp [Run, h, hc]

/-- Claim C1 (counterexample): `AttachXDPLegacy` does NOT wrap
`syscall.Errno(-retC)`. With the native `bpf_xdp_attach` returning `-1` while
the cgo thread-local errno is `2`, the returned error wraps `Errno 2` and not
`Errno 1` as the claim requires. -/
theorem claim_C1_counterexample :
    AttachXDPLegacy sampleProg "eth0" 0 (some 1) 0 (.ok 2) (-1) 2 =
      some (.wrap "failed to attach xdp" (.errno 2)) ∧
    optWrapsErrno
      (AttachXDPLegacy sampleProg "eth0" 0 (some 1) 0 (.ok 2) (-1) 2) 1 =
      false := by
  exact ⟨rfl, rfl⟩

/-- Claim C1 (amended): for `Pin`, `Unpin`, `SetAutoload`, `SetAttachTarget`,
`SetType`, `SetExpectedAttachType`, `AttachGenericFD`, `DetachGenericFD` and
`Run`, a negative native return code `-e` yields an error wrapping
`syscall.Errno e` and a non-negative one yields nil; for `DetachCgroupLegacy`,
`AttachXDPLegacy` and `DetachXDPLegacy` a negative return code yields an error
wrapping the cgo-reported thread-local errno value instead, and a
non-negative one yields nil. -/
theorem claim_C1_amended :
    (∀ (p : BPFProg) (path absPath : String) (f : String → Int),
      (f absPath < 0 →
        optWrapsErrno (Pin p path (some absPath) f).1 (-(f absPath)) = true) ∧
      (0 ≤ f absPath → (Pin p path (some absPath) f).1 = none)) ∧
    (∀ (p : BPFProg) (path : String) (g : String → Int),
      (g path < 0 →
        optWrapsErrno (Unpin p path g).1 (-(g path)) = true) ∧
      (0 ≤ g path → (Unpin p path g).1 = none)) ∧
    (∀ (p : BPFProg) (b : Bool) (r : Int),
      (r < 0 → optWrapsErrno (SetAutoload p b r) (-r) = true) ∧
      (0 ≤ r → SetAutoload p b r = none)) ∧
    (∀ (p : BPFProg) (fd : Int) (fn : String) (r : Int),
      (r < 0 → optWrapsErrno (SetAttachTarget p fd fn r) (-r) = true) ∧
      (0 ≤ r → SetAttachTarget p fd fn r = none)) ∧
    (∀ (p : BPFProg) (t r : Int),
      (r < 0 → optWrapsErrno (SetType p t r) (-r) = true) ∧
      (0 ≤ r → SetType p t r = none)) ∧
    (∀ (p : BPFProg) (t r : Int),
      (r < 0 → optWrapsErrno (SetExpectedAttachType p t r) (-r) = true) ∧
      (0 ≤ r → SetExpectedAttachType p t r = none)) ∧
    (∀ (p : BPFProg) (tfd aty : Int) (fl : Nat) (r : Int),
      (r < 0 → optWrapsErrno (AttachGenericFD p tfd aty fl r) (-r) = true) ∧
      (0 ≤ r → AttachGenericFD p tfd aty fl r = none)) ∧
    (∀ (p : BPFProg) (tfd aty r : Int),
      (r < 0 → optWrapsErrno (DetachGenericFD p tfd aty r) (-r) = true) ∧
      (0 ≤ r → DetachGenericFD p tfd aty r = none)) ∧
    (∀ (p : BPFProg) (m : Module) (opts : Option RunOpts) (k : Bool) (ev : Int)
        (nr : Option CTestRunOpts → Int) (mu : CTestRunOpts → CTestRunOpts)
        (oc : Option CTestRunOpts),
      runOptsToC opts k ev = some (.ok oc) →
      (nr oc < 0 →
        optWrapsErrno (runError (Run p m opts k ev nr mu).1)
          (-(nr oc)) = true) ∧
      (0 ≤ nr oc → runError (Run p m opts k ev nr mu).1 = none)) ∧
    (∀ (p : BPFProg) (path : String) (aty fd : Int) (oe : GoError) (r ev : Int),
      0 ≤ fd →
      (r < 0 →
        optWrapsErrno (DetachCgroupLegacy p path aty fd oe r ev) ev = true) ∧
      (0 ≤ r → DetachCgroupLegacy p path aty fd oe r ev = none)) ∧
    (∀ (p : BPFProg) (dev : String) (fl ocp : Nat) (oev idx r ev : Int),
      (r < 0 →
        optWrapsErrno (AttachXDPLegacy p dev fl (some ocp) oev (.ok idx) r ev)
          ev = true) ∧
      (0 ≤ r →
        AttachXDPLegacy p dev fl (some ocp) oev (.ok idx) r ev = none)) ∧
    (∀ (p : BPFProg) (dev : String) (fl ocp : Nat) (oev idx r ev : Int),
      (r < 0 →
        optWrapsErrno (DetachXDPLegacy p dev fl (some ocp) oev (.ok idx) r ev)
          ev = true) ∧
      (0 ≤ r →
        DetachXDPLegacy p dev fl (some ocp) oev (.ok idx) r ev = none)) := by
  refine ⟨?_, ?_, ?_, ?_, ?_, ?_, ?_, ?_, ?_, ?_, ?_, ?_⟩
  · intro p path absPath f
    refine ⟨fun h => ?_, fun h => ?_⟩
    · simp [Pin, h, optWrapsErrno, GoError.wrapsErrno]
    · have h' := not_lt.mpr h
      simp [Pin, h']
  · intro p path g
    refine ⟨fun h => ?_, fun h => ?_⟩
    · simp [Unpin, h, optWrapsErrno, GoError.wrapsErrno]
    · have h' := not_lt.mpr h
      simp [Unpin, h']
  · intro p b r
    refine ⟨fun h => ?_, fun h => ?_⟩
    · simp [SetAutoload, h, optWrapsErrno, GoError.wrapsErrno]
    · have h' := not_lt.mpr h
      simp [SetAutoload, h']
  · intro p fd fn r
    refine ⟨fun h => ?_, fun h => ?_⟩
    · simp [SetAttachTarget, h, optWrapsErrno, GoError.wrapsErrno]
    · have h' := not_lt.mpr h
      simp [SetAttachTarget, h']
  · intro p t r
    refine ⟨fun h => ?_, fun h => ?_⟩
    · simp [SetType, h, optWrapsErrno, GoError.wrapsErrno]
    · have h' := not_lt.mpr h
      simp [SetType, h']
  · intro p t r
    refine ⟨fun h => ?_, fun h => ?_⟩
    · simp [SetExpectedAttachType, h, optWrapsErrno, GoError.wrapsErrno]
    · have h' := not_lt.mpr h
      simp [SetExpectedAttachType, h']
  · intro p tfd aty fl r
    refine ⟨fun h => ?_, fun h => ?_⟩
    · simp [AttachGenericFD, h, optWrapsErrno, GoError.wrapsErrno]
    · have h' := not_lt.mpr h
      simp [AttachGenericFD, h']
  · intro p tfd aty r
    refine ⟨fun h => ?_, fun h => ?_⟩
    · simp [DetachGenericFD, h, optWrapsErrno, GoError.wrapsErrno]
    · have h' := not_lt.mpr h
      simp [DetachGenericFD, h']
  · intro p m opts k ev nr mu oc htoC
    refine ⟨fun h => ?_, fun h => ?_⟩
    · simp [Run, htoC, h, runError, optWrapsErrno, GoError.wrapsErrno]
    · have h' := not_lt.mpr h
      simp [Run, htoC, h', runError]
  · intro p path aty fd oe r ev hfd
    have hfd' := not_lt.mpr hfd
    refine ⟨fun h => ?_, fun h => ?_⟩
    · simp [DetachCgroupLegacy, getCgroupDirFD, hfd', h, optWrapsErrno,
        GoError.wrapsErrno]
    · have h' := not_lt.mpr h
      simp [DetachCgroupLegacy, getCgroupDirFD, hfd', h']
  · intro p dev fl ocp oev idx r ev
    refine ⟨fun h => ?_, fun h => ?_⟩
    · simp [AttachXDPLegacy, h, optWrapsErrno, GoError.wrapsErrno]
    · have h' := not_lt.mpr h
      simp [AttachXDPLegacy, h']
  · intro p dev fl ocp oev idx r ev
    refine ⟨fun h => ?_, fun h => ?_⟩
    · simp [DetachXDPLegacy, h, optWrapsErrno, GoError.wrapsErrno]
    · have h' := not_lt.mpr h
      simp [DetachXDPLegacy, h']

/-- Witness for the amended C1 at concrete inputs: one failing instance per
operation (plus two succeeding ones), with the errno each error wraps. -/
theorem claim_C1_amended_witness :
    optWrapsErrno (Pin sampleProg "/x" (some "/x") (fun _ => -5)).1 5 = true ∧
    (Pin sampleProg "/x" (some "/x") (fun _ => 0)).1 = none ∧
    optWrapsErrno (Unpin sampleProg "/x" (fun _ => -4)).1 4 = true ∧
    optWrapsErrno (SetAutoload sampleProg true (-3)) 3 = true ∧
    optWrapsErrno (SetAttachTarget sampleProg 0 "foo" (-2)) 2 = true ∧
    optWrapsErrno (SetType sampleProg 1 (-2)) 2 = true ∧
    optWrapsErrno (SetExpectedAttachType sampleProg 1 (-2)) 2 = true ∧
    optWrapsErrno (AttachGenericFD sampleProg 3 1 0 (-2)) 2 = true ∧
    optWrapsErrno (DetachGenericFD sampleProg 3 1 (-2)) 2 = true ∧
    optWrapsErrno
      (runError
        (Run sampleProg sampleModule none true 0 (fun _ => -6) id).1) 6 =
      true ∧
    optWrapsErrno
      (DetachCgroupLegacy sampleProg "/sys" 1 3 (.errno 0) (-1) 13) 13 =
      true ∧
    optWrapsErrno
      (AttachXDPLegacy sampleProg "eth0" 0 (some 1) 0 (.ok 2) (-1) 13) 13 =
      true ∧
    AttachXDPLegacy sampleProg "eth0" 0 (some 1) 0 (.ok 2) 0 13 = none ∧
    optWrapsErrno
      (DetachXDPLegacy sampleProg "eth0" 0 (some 1) 0 (.ok 2) (-1) 13) 13 =
      true := by
  obtain ⟨h1, h2, h3, h4, h5, h6, h7, h8, h9, h10, h11, h12⟩ := claim_C1_amended
  exact ⟨(h1 sampleProg "/x" "/x" (fun _ => -5)).1 (by decide),
         (h1 sampleProg "/x" "/x" (fun _ => 0)).2 (by decide),
         (h2 sampleProg "/x" (fun _ => -4)).1 (by decide),
         (h3 sampleProg true (-3)).1 (by decide),
         (h4 sampleProg 0 "foo" (-2)).1 (by decide),
         (h5 sampleProg 1 (-2)).1 (by decide),
         (h6 sampleProg 1 (-2)).1 (by decide),
         (h7 sampleProg 3 1 0 (-2)).1 (by decide),
         (h8 sampleProg 3 1 (-2)).1 (by decide),
         (h9 sampleProg sampleModule none true 0 (fun _ => -6) id none
           rfl).1 (by decide),
         (h10 sampleProg "/sys" 1 3 (.errno 0) (-1) 13 (by decide)).1
           (by decide),
         (h11 sampleProg "eth0" 0 1 0 2 (-1) 13).1 (by decide),
         (h11 sampleProg "eth0" 0 1 0 2 0 13).2 (by decide),
         (h12 sampleProg "eth0" 0 1 0 2 (-1) 13).1 (by decide)⟩

/-- Claim C8 (confirmed): the marshalling step `runOptsToC` is defined (does
not hit the out-of-range branch of the element-0 index) exactly when every
non-nil buffer among `DataIn`, `DataOut`, `CtxIn`, `CtxOut` has length at
least 1; a non-nil zero-length slice falls outside and panics. -/
theorem claim_C8_buffer_indexing (o : RunOpts) (k : Bool) (ev : Int) :
    runOptsToC (some o) k ev ≠ none ↔
      ((∀ bs, o.DataIn = some bs → 1 ≤ bs.length) ∧
       (∀ bs, o.DataOut = some bs → 1 ≤ bs.length) ∧
       (∀ bs, o.CtxIn = some bs → 1 ≤ bs.length) ∧
       (∀ bs, o.CtxOut = some bs → 1 ≤ bs.length)) := by
  rw [← bufPtr_ne_none_iff o.DataIn, ← bufPtr_ne_none_iff o.DataOut,
      ← bufPtr_ne_none_iff o.CtxIn, ← bufPtr_ne_none_iff o.CtxOut]
  rcases h1 : bufPtr o.DataIn with _ | d1 <;>
  rcases h2 : bufPtr o.DataOut with _ | d2 <;>
  rcases h3 : bufPtr o.CtxIn with _ | d3 <;>
  rcases h4 : bufPtr o.CtxOut with _ | d4 <;>
  cases k <;>
  simp [runOptsToC, h1, h2, h3, h4]

/-- Witness for C8 at concrete inputs: with all four buffers nil the
precondition holds and marshalling does not panic. -/
theorem claim_C8_buffer_indexing_witness :
    runOptsToC (some sampleRunOptsNil) true 0 ≠ none := by
  refine (claim_C8_buffer_indexing sampleRunOptsNil true 0).mpr
    ⟨?_, ?_, ?_, ?_⟩ <;>
  · intro bs h
    simp [sampleRunOptsNil] at h

/-- Claim C5 (confirmed): on a successful `Run` with non-nil opts, every
listed field of the caller's `RunOpts` (output and input buffers, `RetVal`,
`Repeat`, `Duration`, `Flags`, `CPU`, `BatchSize`) is overwritten with the
value carried by the C structure after the native test-run call. The
hypotheses say the marshalling succeeded, the native call returned
non-negatively, and the native call — which mutates the structure in place —
did not change which buffer pointers are NULL (pointers are inputs to the
kernel; it writes contents, sizes and scalars). -/
theorem claim_C5_run_fills_opts
    (p : BPFProg) (m : Module) (o : RunOpts) (k : Bool) (ev : Int)
    (nr : Option CTestRunOpts → Int) (mu : CTestRunOpts → CTestRunOpts)
    (c : CTestRunOpts)
    (htoC : runOptsToC (some o) k ev = some (.ok (some c)))
    (hret : 0 ≤ nr (some c))
    (hdi : (mu c).data_in.isSome = c.data_in.isSome)
    (hdo : (mu c).data_out.isSome = c.data_out.isSome)
    (hci : (mu c).ctx_in.isSome = c.ctx_in.isSome)
    (hco : (mu c).ctx_out.isSome = c.ctx_out.isSome) :
    Run p m (some o) k ev nr mu =
      (.done none (some (runOptsFromC o (some (mu c)))), p, m) ∧
    (runOptsFromC o (some (mu c))).DataIn = (mu c).data_in ∧
    (runOptsFromC o (some (mu c))).DataOut = (mu c).data_out ∧
    (runOptsFromC o (some (mu c))).CtxIn = (mu c).ctx_in ∧
    (runOptsFromC o (some (mu c))).CtxOut = (mu c).ctx_out ∧
    (runOptsFromC o (some (mu c))).RetVal = (mu c).retval ∧
    (runOptsFromC o (some (mu c))).Repeat = (mu c).repeat_ ∧
    (runOptsFromC o (some (mu c))).Duration = (mu c).duration ∧
    (runOptsFromC o (some (mu c))).Flags = (mu c).flags ∧
    (runOptsFromC o (some (mu c))).CPU = (mu c).cpu ∧
    (runOptsFromC o (some (mu c))).BatchSize = (mu c).batch_size := by
  obtain ⟨e1, e2, e3, e4⟩ := runOptsToC_inv o k ev c htoC
  have h' := not_lt.mpr hret
  refine ⟨?_, ?_, ?_, ?_, ?_, rfl, rfl, rfl, rfl, rfl, rfl⟩
  · simp [Run, htoC, h']
  · exact setBuf_writes o.DataIn c.data_in (mu c).data_in e1 hdi
  · exact setBuf_writes o.DataOut c.data_out (mu c).data_out e2 hdo
  · exact setBuf_writes o.CtxIn c.ctx_in (mu c).ctx_in e3 hci
  · exact setBuf_writes o.CtxOut c.ctx_out (mu c).ctx_out e4 hco

/-- Witness for C5 at concrete inputs: a native call that writes the output
buffer and the scalar results ends with those values in the caller's
structure. -/
theorem claim_C5_run_fills_opts_witness :
    (runOptsFromC sampleRunOptsBuf (some (sampleMut sampleCOpts))).DataOut =
      some [9] ∧
    (runOptsFromC sampleRunOptsBuf (some (sampleMut sampleCOpts))).RetVal =
      7 := by
  have h := claim_C5_run_fills_opts sampleProg sampleModule sampleRunOptsBuf
    true 0 (fun _ => 0) sampleMut sampleCOpts rfl (by decide) rfl rfl rfl rfl
  exact ⟨h.2.2.1.trans (by decide), h.2.2.2.2.2.1.trans (by decide)⟩

/-- Inversion of a successful `AttachGeneric`: the link records the program,
carries the `Tracing` tag and the derived event name, and the module is
unchanged. -/
theorem AttachGeneric_ok (p : BPFProg) (m : Module) (lc : Option Nat)
    (ev : Int) (l : BPFLink) (m2 : Module)
    (h : AttachGeneric p m lc ev = (.ok l, m2)) :
    l.prog = p.progId ∧ m2 = m ∧ l.linkType = .Tracing ∧
    l.eventName = "tracing-" ++ p.name := by
  cases lc with
  | none => simp [AttachGeneric] at h
  | some x =>
    simp [AttachGeneric, Prod.ext_iff] at h
    obtain ⟨h1, h2⟩ := h
    subst h1
    subst h2
    exact ⟨rfl, rfl, rfl, rfl⟩

/-- Inversion of a successful `AttachCgroup`: the link records the program,
is appended to the module's links, and carries the `Cgroup` tag and the
derived event name. -/
theorem AttachCgroup_ok (p : BPFProg) (m : Module) (path : String) (fd : Int)
    (oe : GoError) (lc : Option Nat) (ev : Int) (l : BPFLink) (m2 : Module)
    (h : AttachCgroup p m path fd oe lc ev = (.ok l, m2)) :
    l.prog = p.progId ∧ m2.links = m.links ++ [l] ∧ l.linkType = .Cgroup ∧
    l.eventName = "cgroup-" ++ p.name ++ "-" ++ dashedPath path := by
  by_cases hfd : fd < 0
  · simp [AttachCgroup, getCgroupDirFD, hfd] at h
  · cases lc with
    | none => simp [AttachCgroup, getCgroupDirFD, hfd] at h
    | some x =>
      simp [AttachCgroup, getCgroupDirFD, hfd, Prod.ext_iff] at h
      obtain ⟨h1, h2⟩ := h
      subst h1
      subst h2
      exact ⟨rfl, rfl, rfl, rfl⟩

/-- An `AttachCgroup` with a NULL link pointer always fails and leaves the
module unchanged. -/
theorem AttachCgroup_none (p : BPFProg) (m : Module) (path : String)
    (fd : Int) (oe : GoError) (ev : Int) :
    ∃ e, AttachCgroup p m path fd oe none ev = (.error e, m) := by
  by_cases hfd : fd < 0
  · refine ⟨.wrap ("failed to open cgroupv2 directory path " ++ path) oe, ?_⟩
    simp [AttachCgroup, getCgroupDirFD, hfd]
  · refine ⟨.wrap ("failed to attach cgroup on cgroupv2 " ++ path ++
      " to program " ++ p.name) (.errno ev), ?_⟩
    simp [AttachCgroup, getCgroupDirFD, hfd]

/-- A failed `AttachCgroup` leaves the module unchanged. -/
theorem AttachCgroup_err_frame (p : BPFProg) (m : Module) (path : String)
    (fd : Int) (oe : GoError) (lc : Option Nat) (ev : Int) (e : GoError)
    (m2 : Module) (h : AttachCgroup p m path fd oe lc ev = (.error e, m2)) :
    m2 = m := by
  by_cases hfd : fd < 0
  · simp [AttachCgroup, getCgroupDirFD, hfd, Prod.ext_iff] at h
    exact h.2.symm
  · cases lc with
    | none =>
      simp [AttachCgroup, getCgroupDirFD, hfd, Prod.ext_iff] at h
      exact h.2.symm
    | some x => simp [AttachCgroup, getCgroupDirFD, hfd, Prod.ext_iff] at h

/-- Inversion of a successful `AttachXDP`. -/
theorem AttachXDP_ok (p : BPFProg) (m : Module) (dev : String)
    (ifaceRes : Except GoError Int) (lc : Option Nat) (ev : Int) (l : BPFLink)
    (m2 : Module) (h : AttachXDP p m dev ifaceRes lc ev = (.ok l, m2)) :
    l.prog = p.progId ∧ m2.links = m.links ++ [l] ∧ l.linkType = .XDP ∧
    l.eventName = "xdp-" ++ p.name ++ "-" ++ dev := by
  cases ifaceRes with
  | error e0 => simp [AttachXDP] at h
  | ok idx =>
    cases lc with
    | none => simp [AttachXDP] at h
    | some x =>
      simp [AttachXDP, Prod.ext_iff] at h
      obtain ⟨h1, h2⟩ := h
      subst h1
      subst h2
      exact ⟨rfl, rfl, rfl, rfl⟩

/-- Inversion of a successful `AttachTracepoint`. -/
theorem AttachTracepoint_ok (p : BPFProg) (m : Module) (cat nm : String)
    (lc : Option Nat) (ev : Int) (l : BPFLink) (m2 : Module)
    (h : AttachTracepoint p m cat nm lc ev = (.ok l, m2)) :
    l.prog = p.progId ∧ m2.links = m.links ++ [l] ∧
    l.linkType = .Tracepoint ∧ l.eventName = nm := by
  cases lc with
  | none => simp [AttachTracepoint] at h
  | some x =>
    simp [AttachTracepoint, Prod.ext_iff] at h
    obtain ⟨h1, h2⟩ := h
    subst h1
    subst h2
    exact ⟨rfl, rfl, rfl, rfl⟩

/-- Inversion of a successful `AttachRawTracepoint`. -/
theorem AttachRawTracepoint_ok (p : BPFProg) (m : Module) (tpEvent : String)
    (lc : Option Nat) (ev : Int) (l : BPFLink) (m2 : Module)
    (h : AttachRawTracepoint p m tpEvent lc ev = (.ok l, m2)) :
    l.prog = p.progId ∧ m2.links = m.links ++ [l] ∧
    l.linkType = .RawTracepoint ∧ l.eventName = tpEvent := by
  cases lc with
  | none => simp [AttachRawTracepoint] at h
  | some x =>
    simp [AttachRawTracepoint, Prod.ext_iff] at h
    obtain ⟨h1, h2⟩ := h
    subst h1
    subst h2
    exact ⟨rfl, rfl, rfl, rfl⟩

/-- Inversion of a successful `AttachLSM`. -/
theorem AttachLSM_ok (p : BPFProg) (m : Module) (lc : Option Nat) (ev : Int)
    (l : BPFLink) (m2 : Module) (h : AttachLSM p m lc ev = (.ok l, m2)) :
    l.prog = p.progId ∧ m2.links = m.links ++ [l] ∧ l.linkType = .LSM ∧
    l.eventName = "" := by
  cases lc with
  | none => simp [AttachLSM] at h
  | some x =>
    simp [AttachLSM, Prod.ext_iff] at h
    obtain ⟨h1, h2⟩ := h
    subst h1
    subst h2
    exact ⟨rfl, rfl, rfl, rfl⟩

/-- Inversion of a successful `AttachPerfEvent`. -/
theorem AttachPerfEvent_ok (p : BPFProg) (m : Module) (fd : Int)
    (lc : Option Nat) (ev : Int) (l : BPFLink) (m2 : Module)
    (h : AttachPerfEvent p m fd lc ev = (.ok l, m2)) :
    l.prog = p.progId ∧ m2.links = m.links ++ [l] ∧
    l.linkType = .PerfEvent ∧ l.eventName = "" := by
  cases lc with
  | none => simp [AttachPerfEvent] at h
  | some x =>
    simp [AttachPerfEvent, Prod.ext_iff] at h
    obtain ⟨h1, h2⟩ := h
    subst h1
    subst h2
    exact ⟨rfl, rfl, rfl, rfl⟩

/-- Inversion of a successful `attachKprobeCommon`. -/
theorem attachKprobeCommon_ok (p : BPFProg) (m : Module) (a : attachTo)
    (ocp : Option Nat) (oev : Int) (lc : Option Nat) (lev : Int) (l : BPFLink)
    (m2 : Module) (h : attachKprobeCommon p m a ocp oev lc lev = (.ok l, m2)) :
    l.prog = p.progId ∧ m2.links = m.links ++ [l] ∧
    l.linkType = (if a.isRet then LinkType.Kretprobe else LinkType.Kprobe) ∧
    l.eventName =
      (if a.symName == "" then toString a.symAddr else a.symName) := by
  cases ocp with
  | none => simp [attachKprobeCommon] at h
  | some x =>
    cases lc with
    | none => simp [attachKprobeCommon] at h
    | some y =>
      simp [attachKprobeCommon, Prod.ext_iff] at h
      obtain ⟨h1, h2⟩ := h
      subst h1
      subst h2
      exact ⟨rfl, rfl, rfl, by simp⟩

/-- Inversion of a successful `AttachNetns`. -/
theorem AttachNetns_ok (p : BPFProg) (m : Module) (path : String) (fd : Int)
    (oe : GoError) (lc : Option Nat) (ev : Int) (l : BPFLink) (m2 : Module)
    (h : AttachNetns p m path fd oe lc ev = (.ok l, m2)) :
    l.prog = p.progId ∧ m2.links = m.links ++ [l] ∧ l.linkType = .Netns ∧
    l.eventName = "netns-" ++ p.name ++ "-" ++ dashedPath path := by
  by_cases hfd : fd < 0
  · simp [AttachNetns, hfd] at h
  · cases lc with
    | none => simp [AttachNetns, hfd] at h
    | some x =>
      simp [AttachNetns, hfd, Prod.ext_iff] at h
      obtain ⟨h1, h2⟩ := h
      subst h1
      subst h2
      exact ⟨rfl, rfl, rfl, rfl⟩

/-- Inversion of a successful `AttachIter`. -/
theorem AttachIter_ok (p : BPFProg) (m : Module) (io : IterOpts)
    (ocp : Option Nat) (oev : Int) (lc : Option Nat) (ev : Int) (l : BPFLink)
    (m2 : Module) (h : AttachIter p m io ocp oev lc ev = (.ok l, m2)) :
    l.prog = p.progId ∧ m2.links = m.links ++ [l] ∧ l.linkType = .Iter ∧
    l.eventName = "iter-" ++ p.name ++ "-" ++ toString io.MapFd := by
  cases ocp with
  | none => simp [AttachIter] at h
  | some x =>
    cases lc with
    | none => simp [AttachIter] at h
    | some y =>
      simp [AttachIter, Prod.ext_iff] at h
      obtain ⟨h1, h2⟩ := h
      subst h1
      subst h2
      exact ⟨rfl, rfl, rfl, rfl⟩

/-- Inversion of a successful `doAttachUprobe`: the module is unchanged (no
link is appended). -/
theorem doAttachUprobe_ok (prog : BPFProg) (m : Module) (b : Bool) (pid : Int)
    (path : String) (off : Nat) (lc : Option Nat) (ev : Int) (l : BPFLink)
    (m2 : Module) (h : doAttachUprobe prog m b pid path off lc ev = (.ok l, m2)) :
    l.prog = prog.progId ∧ m2 = m ∧
    l.linkType = (if b then LinkType.Uretprobe else LinkType.Uprobe) ∧
    l.eventName = path ++ ":" ++ toString pid ++ ":" ++ toString off := by
  cases lc with
  | none => simp [doAttachUprobe] at h
  | some x =>
    simp [doAttachUprobe, Prod.ext_iff] at h
    obtain ⟨h1, h2⟩ := h
    subst h1
    subst h2
    exact ⟨rfl, rfl, rfl, rfl⟩

/-- Inversion of a successful `doAttachUprobeMulti`: the module is unchanged
(no link is appended). -/
theorem doAttachUprobeMulti_ok (prog : BPFProg) (m : Module) (b : Bool)
    (pid : Int) (path : String) (offsets cookies : List Nat) (lc : Option Nat)
    (ev : Int) (l : BPFLink) (m2 : Module)
    (h : doAttachUprobeMulti prog m b pid path offsets cookies lc ev =
      (.ok l, m2)) :
    l.prog = prog.progId ∧ m2 = m ∧
    l.linkType = (if b then LinkType.Uretprobe else LinkType.Uprobe) ∧
    l.eventName = path ++ ":" ++ toString pid ++ ":" ++ goUintSlice offsets := by
  cases lc with
  | none => simp [doAttachUprobeMulti] at h
  | some x =>
    simp [doAttachUprobeMulti, Prod.ext_iff] at h
    obtain ⟨h1, h2⟩ := h
    subst h1
    subst h2
    exact ⟨rfl, rfl, rfl, rfl⟩

/-- Inversion of a successful `AttachUSDT`: the module is unchanged (no link
is appended). -/
theorem AttachUSDT_ok (p : BPFProg) (m : Module) (pid : Int)
    (binaryPath provider nm : String) (lc : Option Nat) (ev : Int)
    (l : BPFLink) (m2 : Module)
    (h : AttachUSDT p m pid binaryPath provider nm lc ev = (.ok l, m2)) :
    l.prog = p.progId ∧ m2 = m ∧ l.linkType = .USDT ∧
    l.eventName = binaryPath ++ ":" ++ toString pid ++ ":" ++ provider ++
      ":" ++ nm := by
  cases lc with
  | none => simp [AttachUSDT] at h
  | some x =>
    simp [AttachUSDT, Prod.ext_iff] at h
    obtain ⟨h1, h2⟩ := h
    subst h1
    subst h2
    exact ⟨rfl, rfl, rfl, rfl⟩

/-- Inversion of a success of `AttachCgroupLegacy` whose first (link-based)
attempt had a NULL link pointer: the success came from the legacy fallback,
the fake link carries the `CgroupLegacy` tag, the legacy metadata and a NULL
link pointer, and it is NOT appended to the module's links. -/
theorem AttachCgroupLegacy_ok_legacy (p : BPFProg) (m : Module) (path : String)
    (aty fd1 : Int) (oe1 : GoError) (ev : Int) (fd2 : Int) (oe2 : GoError)
    (lr lev : Int) (l : BPFLink) (m2 : Module)
    (h : AttachCgroupLegacy p m path aty fd1 oe1 none ev fd2 oe2 lr lev =
      (.ok l, m2)) :
    l.prog = p.progId ∧ m2.links = m.links ∧ l.linkType = .CgroupLegacy ∧
    l.legacy = some { attachType := aty, cgroupDir := path } ∧
    l.eventName = "cgroup-" ++ p.name ++ "-" ++ dashedPath path ∧
    l.link = none := by
  obtain ⟨e, he⟩ := AttachCgroup_none p m path fd1 oe1 ev
  by_cases hfd2 : fd2 < 0
  · simp [AttachCgroupLegacy, he, getCgroupDirFD, hfd2] at h
  · by_cases hlr : lr < 0
    · simp [AttachCgroupLegacy, he, getCgroupDirFD, hfd2, hlr] at h
    · simp [AttachCgroupLegacy, he, getCgroupDirFD, hfd2, hlr,
        Prod.ext_iff] at h
      obtain ⟨h1, h2⟩ := h
      subst h1
      subst h2
      exact ⟨rfl, rfl, rfl, rfl, rfl, rfl⟩

/-- Claim C2 (counterexample): `AttachCgroupLegacy` does layer a recovery
policy on top of a failed native attach: with the native link-based cgroup
attach failing (NULL link pointer, here with errno 13), the operation does
not report an error but attempts the legacy fd-based attach, and when that
succeeds (return 0) the caller receives a successful fake link. -/
theorem claim_C2_counterexample :
    isErr (AttachCgroup sampleProg sampleModule "/sys" 3 (.errno 0) none 13).1
      = true ∧
    (AttachCgroupLegacy sampleProg sampleModule "/sys" 1 3 (.errno 0) none 13
      3 (.errno 0) 0 0).1 = .ok sampleLegacyLink := by
  exact ⟨rfl, rfl⟩

/-- Claim C2 (amended): apart from `AttachCgroupLegacy` — which, when the
link-based cgroup attach fails, attempts the legacy fd-based attach once
before failing — every attach operation reports a failed native attach call
directly as an error, with no retry, backoff or alternative mechanism; and
`AttachCgroupLegacy` itself fails once the legacy attempt also fails. -/
theorem claim_C2_amended :
    (∀ (p : BPFProg) (m : Module) (ev : Int),
      isErr (AttachGeneric p m none ev).1 = true) ∧
    (∀ (p : BPFProg) (m : Module) (path : String) (fd : Int) (oe : GoError)
        (ev : Int), isErr (AttachCgroup p m path fd oe none ev).1 = true) ∧
    (∀ (p : BPFProg) (m : Module) (dev : String) (idx ev : Int),
      isErr (AttachXDP p m dev (.ok idx) none ev).1 = true) ∧
    (∀ (p : BPFProg) (m : Module) (cat nm : String) (ev : Int),
      isErr (AttachTracepoint p m cat nm none ev).1 = true) ∧
    (∀ (p : BPFProg) (m : Module) (tp : String) (ev : Int),
      isErr (AttachRawTracepoint p m tp none ev).1 = true) ∧
    (∀ (p : BPFProg) (m : Module) (ev : Int),
      isErr (AttachLSM p m none ev).1 = true) ∧
    (∀ (p : BPFProg) (m : Module) (fd ev : Int),
      isErr (AttachPerfEvent p m fd none ev).1 = true) ∧
    (∀ (p : BPFProg) (m : Module) (a : attachTo) (ocp : Nat) (oev ev : Int),
      isErr (attachKprobeCommon p m a (some ocp) oev none ev).1 = true) ∧
    (∀ (p : BPFProg) (m : Module) (path : String) (fd : Int) (oe : GoError)
        (ev : Int), isErr (AttachNetns p m path fd oe none ev).1 = true) ∧
    (∀ (p : BPFProg) (m : Module) (io : IterOpts) (ocp : Nat) (oev ev : Int),
      isErr (AttachIter p m io (some ocp) oev none ev).1 = true) ∧
    (∀ (p : BPFProg) (m : Module) (b : Bool) (pid : Int) (path : String)
        (off : Nat) (ev : Int),
      isErr (doAttachUprobe p m b pid path off none ev).1 = true) ∧
    (∀ (p : BPFProg) (m : Module) (b : Bool) (pid : Int) (path : String)
        (offsets cookies : List Nat) (ev : Int),
      isErr (doAttachUprobeMulti p m b pid path offsets cookies none ev).1 =
        true) ∧
    (∀ (p : BPFProg) (m : Module) (pid : Int) (bp pr nm : String) (ev : Int),
      isErr (AttachUSDT p m pid bp pr nm none ev).1 = true) ∧
    (∀ (p : BPFProg) (tfd aty : Int) (fl : Nat) (r : Int), r < 0 →
      (AttachGenericFD p tfd aty fl r).isSome = true) ∧
    (∀ (p : BPFProg) (dev : String) (fl ocp : Nat) (oev idx r ev : Int),
      r < 0 →
      (AttachXDPLegacy p dev fl (some ocp) oev (.ok idx) r ev).isSome =
        true) ∧
    (∀ (p : BPFProg) (m : Module) (path : String) (aty fd1 : Int)
        (oe1 : GoError) (ev fd2 : Int) (oe2 : GoError) (lr lev : Int),
      lr < 0 →
      isErr (AttachCgroupLegacy p m path aty fd1 oe1 none ev fd2 oe2
        lr lev).1 = true) := by
  refine ⟨?_, ?_, ?_, ?_, ?_, ?_, ?_, ?_, ?_, ?_, ?_, ?_, ?_, ?_, ?_, ?_⟩
  · intro p m ev
    simp [AttachGeneric, isErr]
  · intro p m path fd oe ev
    by_cases hfd : fd < 0 <;>
      simp [AttachCgroup, getCgroupDirFD, hfd, isErr]
  · intro p m dev idx ev
    simp [AttachXDP, isErr]
  · intro p m cat nm ev
    simp [AttachTracepoint, isErr]
  · intro p m tp ev
    simp [AttachRawTracepoint, isErr]
  · intro p m ev
    simp [AttachLSM, isErr]
  · intro p m fd ev
    simp [AttachPerfEvent, isErr]
  · intro p m a ocp oev ev
    simp [attachKprobeCommon, isErr]
  · intro p m path fd oe ev
    by_cases hfd : fd < 0 <;> simp [AttachNetns, hfd, isErr]
  · intro p m io ocp oev ev
    simp [AttachIter, isErr]
  · intro p m b pid path off ev
    simp [doAttachUprobe, isErr]
  · intro p m b pid path offsets cookies ev
    simp [doAttachUprobeMulti, isErr]
  · intro p m pid bp pr nm ev
    simp [AttachUSDT, isErr]
  · intro p tfd aty fl r h
    simp [AttachGenericFD, h]
  · intro p dev fl ocp oev idx r ev h
    simp [AttachXDPLegacy, h]
  · intro p m path aty fd1 oe1 ev fd2 oe2 lr lev hlr
    obtain ⟨e, he⟩ := AttachCgroup_none p m path fd1 oe1 ev
    by_cases hfd2 : fd2 < 0
    · simp [AttachCgroupLegacy, he, getCgroupDirFD, hfd2, isErr]
    · simp [AttachCgroupLegacy, he, getCgroupDirFD, hfd2, hlr, isErr]

/-- Witness for the amended C2 at concrete inputs, for the three conjuncts
with hypotheses: a failed generic fd attach, a failed legacy XDP attach, and
an `AttachCgroupLegacy` whose both attempts failed, all report errors. -/
theorem claim_C2_amended_witness :
    (AttachGenericFD sampleProg 3 1 0 (-1)).isSome = true ∧
    (AttachXDPLegacy sampleProg "eth0" 0 (some 1) 0 (.ok 2) (-1) 13).isSome =
      true ∧
    isErr (AttachCgroupLegacy sampleProg sampleModule "/sys" 1 3 (.errno 0)
      none 13 3 (.errno 0) (-1) 5).1 = true := by
  obtain ⟨_, _, _, _, _, _, _, _, _, _, _, _, _, h14, h15, h16⟩ :=
    claim_C2_amended
  exact ⟨h14 sampleProg 3 1 0 (-1) (by decide),
         h15 sampleProg "eth0" 0 1 0 2 (-1) 13 (by decide),
         h16 sampleProg sampleModule "/sys" 1 3 (.errno 0) 13 3 (.errno 0)
           (-1) 5 (by decide)⟩

/-- Claim C3 (counterexample): a successful `AttachUprobe` returns a link that
is NOT appended to the module's links list — the module still has no links
after the attach succeeds. -/
theorem claim_C3_counterexample :
    (AttachUprobe sampleProg sampleModule 1 "/bin/sh" 0 (some "/bin/sh")
      (.errno 0) (some 7) 0).1 =
      .ok { link := some 7, prog := 1, linkType := .Uprobe,
            eventName := "/bin/sh:1:0", legacy := none } ∧
    (AttachUprobe sampleProg sampleModule 1 "/bin/sh" 0 (some "/bin/sh")
      (.errno 0) (some 7) 0).2.links = [] := by
  exact ⟨rfl, rfl⟩

/-- Claim C3 (amended): every successful attach records the creating program
in the link's `prog` field; the link is appended to the creating module's
links list by `AttachCgroup`, `AttachXDP`, `AttachTracepoint`,
`AttachRawTracepoint`, `AttachLSM`, `AttachPerfEvent`, the kprobe/kretprobe
attachments (by name or offset), `AttachNetns` and `AttachIter` (and by
`AttachCgroupLegacy` when its link-based first attempt succeeds), but NOT by
`AttachGeneric`, the uprobe/uretprobe and uprobe-multi attachments,
`AttachUSDT`, or the legacy fallback path of `AttachCgroupLegacy`. -/
theorem claim_C3_amended :
    (∀ (p : BPFProg) (m : Module) (path : String) (fd : Int) (oe : GoError)
        (lc : Option Nat) (ev : Int) (l : BPFLink) (m2 : Module),
      AttachCgroup p m path fd oe lc ev = (.ok l, m2) →
      l.prog = p.progId ∧ m2.links = m.links ++ [l]) ∧
    (∀ (p : BPFProg) (m : Module) (dev : String) (ir : Except GoError Int)
        (lc : Option Nat) (ev : Int) (l : BPFLink) (m2 : Module),
      AttachXDP p m dev ir lc ev = (.ok l, m2) →
      l.prog = p.progId ∧ m2.links = m.links ++ [l]) ∧
    (∀ (p : BPFProg) (m : Module) (cat nm : String) (lc : Option Nat)
        (ev : Int) (l : BPFLink) (m2 : Module),
      AttachTracepoint p m cat nm lc ev = (.ok l, m2) →
      l.prog = p.progId ∧ m2.links = m.links ++ [l]) ∧
    (∀ (p : BPFProg) (m : Module) (tp : String) (lc : Option Nat) (ev : Int)
        (l : BPFLink) (m2 : Module),
      AttachRawTracepoint p m tp lc ev = (.ok l, m2) →
      l.prog = p.progId ∧ m2.links = m.links ++ [l]) ∧
    (∀ (p : BPFProg) (m : Module) (lc : Option Nat) (ev : Int) (l : BPFLink)
        (m2 : Module),
      AttachLSM p m lc ev = (.ok l, m2) →
      l.prog = p.progId ∧ m2.links = m.links ++ [l]) ∧
    (∀ (p : BPFProg) (m : Module) (fd : Int) (lc : Option Nat) (ev : Int)
        (l : BPFLink) (m2 : Module),
      AttachPerfEvent p m fd lc ev = (.ok l, m2) →
      l.prog = p.progId ∧ m2.links = m.links ++ [l]) ∧
    (∀ (p : BPFProg) (m : Module) (sym : String) (ocp : Option Nat)
        (oev : Int) (lc : Option Nat) (lev : Int) (l : BPFLink) (m2 : Module),
      AttachKprobe p m sym ocp oev lc lev = (.ok l, m2) →
      l.prog = p.progId ∧ m2.links = m.links ++ [l]) ∧
    (∀ (p : BPFProg) (m : Module) (sym : String) (ocp : Option Nat)
        (oev : Int) (lc : Option Nat) (lev : Int) (l : BPFLink) (m2 : Module),
      AttachKretprobe p m sym ocp oev lc lev = (.ok l, m2) →
      l.prog = p.progId ∧ m2.links = m.links ++ [l]) ∧
    (∀ (p : BPFProg) (m : Module) (off : Nat) (ocp : Option Nat) (oev : Int)
        (lc : Option Nat) (lev : Int) (l : BPFLink) (m2 : Module),
      AttachKprobeOffset p m off ocp oev lc lev = (.ok l, m2) →
      l.prog = p.progId ∧ m2.links = m.links ++ [l]) ∧
    (∀ (p : BPFProg) (m : Module) (off : Nat) (ocp : Option Nat) (oev : Int)
        (lc : Option Nat) (lev : Int) (l : BPFLink) (m2 : Module),
      AttachKretprobeOnOffset p m off ocp oev lc lev = (.ok l, m2) →
      l.prog = p.progId ∧ m2.links = m.links ++ [l]) ∧
    (∀ (p : BPFProg) (m : Module) (path : String) (fd : Int) (oe : GoError)
        (lc : Option Nat) (ev : Int) (l : BPFLink) (m2 : Module),
      AttachNetns p m path fd oe lc ev = (.ok l, m2) →
      l.prog = p.progId ∧ m2.links = m.links ++ [l]) ∧
    (∀ (p : BPFProg) (m : Module) (io : IterOpts) (ocp : Option Nat)
        (oev : Int) (lc : Option Nat) (ev : Int) (l : BPFLink) (m2 : Module),
      AttachIter p m io ocp oev lc ev = (.ok l, m2) →
      l.prog = p.progId ∧ m2.links = m.links ++ [l]) ∧
    (∀ (p : BPFProg) (m : Module) (lc : Option Nat) (ev : Int) (l : BPFLink)
        (m2 : Module),
      AttachGeneric p m lc ev = (.ok l, m2) →
      l.prog = p.progId ∧ m2.links = m.links) ∧
    (∀ (p : BPFProg) (m : Module) (pid : Int) (path : String) (off : Nat)
        (ar : Option String) (ae : GoError) (lc : Option Nat) (ev : Int)
        (l : BPFLink) (m2 : Module),
      AttachUprobe p m pid path off ar ae lc ev = (.ok l, m2) →
      l.prog = p.progId ∧ m2.links = m.links) ∧
    (∀ (p : BPFProg) (m : Module) (pid : Int) (path : String) (off : Nat)
        (ar : Option String) (ae : GoError) (lc : Option Nat) (ev : Int)
        (l : BPFLink) (m2 : Module),
      AttachURetprobe p m pid path off ar ae lc ev = (.ok l, m2) →
      l.prog = p.progId ∧ m2.links = m.links) ∧
    (∀ (p : BPFProg) (m : Module) (pid : Int) (path : String)
        (offsets cookies : List Nat) (ar : Option String) (ae : GoError)
        (lc : Option Nat) (ev : Int) (l : BPFLink) (m2 : Module),
      AttachUprobeMulti p m pid path offsets cookies ar ae lc ev =
        (.ok l, m2) →
      l.prog = p.progId ∧ m2.links = m.links) ∧
    (∀ (p : BPFProg) (m : Module) (pid : Int) (path : String)
        (offsets cookies : List Nat) (ar : Option String) (ae : GoError)
        (lc : Option Nat) (ev : Int) (l : BPFLink) (m2 : Module),
      AttachURetprobeMulti p m pid path offsets cookies ar ae lc ev =
        (.ok l, m2) →
      l.prog = p.progId ∧ m2.links = m.links) ∧
    (∀ (p : BPFProg) (m : Module) (pid : Int) (bp pr nm : String)
        (lc : Option Nat) (ev : Int) (l : BPFLink) (m2 : Module),
      AttachUSDT p m pid bp pr nm lc ev = (.ok l, m2) →
      l.prog = p.progId ∧ m2.links = m.links) ∧
    (∀ (p : BPFProg) (m : Module) (path : String) (aty fd1 : Int)
        (oe1 : GoError) (lc : Option Nat) (ev fd2 : Int) (oe2 : GoError)
        (lr lev : Int) (l0 : BPFLink) (mA : Module),
      AttachCgroup p m path fd1 oe1 lc ev = (.ok l0, mA) →
      AttachCgroupLegacy p m path aty fd1 oe1 lc ev fd2 oe2 lr lev =
        (.ok l0, mA) ∧
      l0.prog = p.progId ∧ mA.links = m.links ++ [l0]) ∧
    (∀ (p : BPFProg) (m : Module) (path : String) (aty fd1 : Int)
        (oe1 : GoError) (lc : Option Nat) (ev fd2 : Int) (oe2 : GoError)
        (lr lev : Int) (e0 : GoError) (mA : Module) (l : BPFLink)
        (m2 : Module),
      AttachCgroup p m path fd1 oe1 lc ev = (.error e0, mA) →
      AttachCgroupLegacy p m path aty fd1 oe1 lc ev fd2 oe2 lr lev =
        (.ok l, m2) →
      l.prog = p.progId ∧ m2.links = m.links ∧
      l.linkType = .CgroupLegacy) := by
  refine ⟨?_, ?_, ?_, ?_, ?_, ?_, ?_, ?_, ?_, ?_, ?_, ?_, ?_, ?_, ?_, ?_,
    ?_, ?_, ?_, ?_⟩
  · intro p m path fd oe lc ev l m2 h
    obtain ⟨h1, h2, _, _⟩ := AttachCgroup_ok p m path fd oe lc ev l m2 h
    exact ⟨h1, h2⟩
  · intro p m dev ir lc ev l m2 h
    obtain ⟨h1, h2, _, _⟩ := AttachXDP_ok p m dev ir lc ev l m2 h
    exact ⟨h1, h2⟩
  · intro p m cat nm lc ev l m2 h
    obtain ⟨h1, h2, _, _⟩ := AttachTracepoint_ok p m cat nm lc ev l m2 h
    exact ⟨h1, h2⟩
  · intro p m tp lc ev l m2 h
    obtain ⟨h1, h2, _, _⟩ := AttachRawTracepoint_ok p m tp lc ev l m2 h
    exact ⟨h1, h2⟩
  · intro p m lc ev l m2 h
    obtain ⟨h1, h2, _, _⟩ := AttachLSM_ok p m lc ev l m2 h
    exact ⟨h1, h2⟩
  · intro p m fd lc ev l m2 h
    obtain ⟨h1, h2, _, _⟩ := AttachPerfEvent_ok p m fd lc ev l m2 h
    exact ⟨h1, h2⟩
  · intro p m sym ocp oev lc lev l m2 h
    obtain ⟨h1, h2, _, _⟩ := attachKprobeCommon_ok p m
      { symName := sym, symAddr := 0, isRet := false } ocp oev lc lev l m2 h
    exact ⟨h1, h2⟩
  · intro p m sym ocp oev lc lev l m2 h
    obtain ⟨h1, h2, _, _⟩ := attachKprobeCommon_ok p m
      { symName := sym, symAddr := 0, isRet := true } ocp oev lc lev l m2 h
    exact ⟨h1, h2⟩
  · intro p m off ocp oev lc lev l m2 h
    obtain ⟨h1, h2, _, _⟩ := attachKprobeCommon_ok p m
      { symName := "", symAddr := off, isRet := false } ocp oev lc lev l m2 h
    exact ⟨h1, h2⟩
  · intro p m off ocp oev lc lev l m2 h
    obtain ⟨h1, h2, _, _⟩ := attachKprobeCommon_ok p m
      { symName := "", symAddr := off, isRet := true } ocp oev lc lev l m2 h
    exact ⟨h1, h2⟩
  · intro p m path fd oe lc ev l m2 h
    obtain ⟨h1, h2, _, _⟩ := AttachNetns_ok p m path fd oe lc ev l m2 h
    exact ⟨h1, h2⟩
  · intro p m io ocp oev lc ev l m2 h
    obtain ⟨h1, h2, _, _⟩ := AttachIter_ok p m io ocp oev lc ev l m2 h
    exact ⟨h1, h2⟩
  · intro p m lc ev l m2 h
    obtain ⟨h1, h2, _, _⟩ := AttachGeneric_ok p m lc ev l m2 h
    exact ⟨h1, by rw [h2]⟩
  · intro p m pid path off ar ae lc ev l m2 h
    cases ar with
    | none => simp [AttachUprobe] at h
    | some ap =>
      obtain ⟨h1, h2, _, _⟩ :=
        doAttachUprobe_ok p m false pid ap off lc ev l m2 h
      exact ⟨h1, by rw [h2]⟩
  · intro p m pid path off ar ae lc ev l m2 h
    cases ar with
    | none => simp [AttachURetprobe] at h
    | some ap =>
      obtain ⟨h1, h2, _, _⟩ :=
        doAttachUprobe_ok p m true pid ap off lc ev l m2 h
      exact ⟨h1, by rw [h2]⟩
  · intro p m pid path offsets cookies ar ae lc ev l m2 h
    cases ar with
    | none => simp [AttachUprobeMulti] at h
    | some ap =>
      obtain ⟨h1, h2, _, _⟩ :=
        doAttachUprobeMulti_ok p m false pid ap offsets cookies lc ev l m2 h
      exact ⟨h1, by rw [h2]⟩
  · intro p m pid path offsets cookies ar ae lc ev l m2 h
    cases ar with
    | none => simp [AttachURetprobeMulti] at h
    | some ap =>
      obtain ⟨h1, h2, _, _⟩ :=
        doAttachUprobeMulti_ok p m true pid ap offsets cookies lc ev l m2 h
      exact ⟨h1, by rw [h2]⟩
  · intro p m pid bp pr nm lc ev l m2 h
    obtain ⟨h1, h2, _, _⟩ := AttachUSDT_ok p m pid bp pr nm lc ev l m2 h
    exact ⟨h1, by rw [h2]⟩
  · intro p m path aty fd1 oe1 lc ev fd2 oe2 lr lev l0 mA hA
    obtain ⟨hp, hl, _, _⟩ := AttachCgroup_ok p m path fd1 oe1 lc ev l0 mA hA
    exact ⟨by simp [AttachCgroupLegacy, hA], hp, hl⟩
  · intro p m path aty fd1 oe1 lc ev fd2 oe2 lr lev e0 mA l m2 hE h
    have hmA : mA = m := AttachCgroup_err_frame p m path fd1 oe1 lc ev e0 mA hE
    subst hmA
    by_cases hfd2 : fd2 < 0
    · simp [AttachCgroupLegacy, hE, getCgroupDirFD, hfd2] at h
    · by_cases hlr : lr < 0
      · simp [AttachCgroupLegacy, hE, getCgroupDirFD, hfd2, hlr] at h
      · simp [AttachCgroupLegacy, hE, getCgroupDirFD, hfd2, hlr,
          Prod.ext_iff] at h
        obtain ⟨h1, h2⟩ := h
        subst h1
        subst h2
        exact ⟨rfl, rfl, rfl⟩

/-- Witness for the amended C3 at concrete inputs: an appending operation
(`AttachCgroup`), a non-appending one (`AttachGeneric`), an
`AttachCgroupLegacy` whose link-based first attempt succeeds (link appended),
and one that succeeds via the legacy fallback (link not appended). -/
theorem claim_C3_amended_witness :
    (sampleCgroupLink.prog = sampleProg.progId ∧
      (AttachCgroup sampleProg sampleModule "/sys" 3 (.errno 0) (some 7)
        0).2.links = sampleModule.links ++ [sampleCgroupLink]) ∧
    (sampleGenericLink.prog = sampleProg.progId ∧
      (AttachGeneric sampleProg sampleModule (some 5) 0).2.links =
        sampleModule.links) ∧
    (AttachCgroupLegacy sampleProg sampleModule "/sys" 1 3 (.errno 0) (some 7)
        0 3 (.errno 0) (-1) 0 =
      (.ok sampleCgroupLink, { links := [sampleCgroupLink] }) ∧
      sampleCgroupLink.prog = sampleProg.progId ∧
      ({ links := [sampleCgroupLink] } : Module).links =
        sampleModule.links ++ [sampleCgroupLink]) ∧
    (sampleLegacyLink.prog = sampleProg.progId ∧
      (AttachCgroupLegacy sampleProg sampleModule "/sys" 1 3 (.errno 0) none
        13 3 (.errno 0) 0 0).2.links = sampleModule.links) := by
  obtain ⟨h1, _, _, _, _, _, _, _, _, _, _, _, h13, _, _, _, _, _, h19,
    h20⟩ := claim_C3_amended
  refine ⟨?_, ?_, ?_, ?_⟩
  · exact h1 sampleProg sampleModule "/sys" 3 (.errno 0) (some 7) 0
      sampleCgroupLink { links := [sampleCgroupLink] } rfl
  · exact h13 sampleProg sampleModule (some 5) 0 sampleGenericLink
      sampleModule rfl
  · exact h19 sampleProg sampleModule "/sys" 1 3 (.errno 0) (some 7) 0 3
      (.errno 0) (-1) 0 sampleCgroupLink { links := [sampleCgroupLink] } rfl
  · have hi := h20 sampleProg sampleModule "/sys" 1 3 (.errno 0) none 13 3
      (.errno 0) 0 0
      (.wrap "failed to attach cgroup on cgroupv2 /sys to program prog"
        (.errno 13))
      sampleModule sampleLegacyLink sampleModule rfl rfl
    exact ⟨hi.1, hi.2.1⟩

/-- Claim C7 (confirmed): every successful attach tags the returned link with
the link-type of its hook kind — `AttachKprobe` yields `Kprobe`,
`AttachKretprobe` yields `Kretprobe`, `AttachUprobe` yields `Uprobe`,
`AttachURetprobe` yields `Uretprobe`, `AttachCgroup` yields `Cgroup`, the
legacy fallback of `AttachCgroupLegacy` yields `CgroupLegacy` together with
the legacy metadata (attach type and cgroup directory), and likewise for the
remaining hooks — and the event name is derived from the attach
parameters. -/
theorem claim_C7_link_tags :
    (∀ (p : BPFProg) (m : Module) (sym : String) (ocp : Option Nat)
        (oev : Int) (lc : Option Nat) (lev : Int) (l : BPFLink) (m2 : Module),
      AttachKprobe p m sym ocp oev lc lev = (.ok l, m2) →
      l.linkType = .Kprobe ∧
      l.eventName = (if sym == "" then toString (0 : Nat) else sym)) ∧
    (∀ (p : BPFProg) (m : Module) (sym : String) (ocp : Option Nat)
        (oev : Int) (lc : Option Nat) (lev : Int) (l : BPFLink) (m2 : Module),
      AttachKretprobe p m sym ocp oev lc lev = (.ok l, m2) →
      l.linkType = .Kretprobe ∧
      l.eventName = (if sym == "" then toString (0 : Nat) else sym)) ∧
    (∀ (p : BPFProg) (m : Module) (off : Nat) (ocp : Option Nat) (oev : Int)
        (lc : Option Nat) (lev : Int) (l : BPFLink) (m2 : Module),
      AttachKprobeOffset p m off ocp oev lc lev = (.ok l, m2) →
      l.linkType = .Kprobe ∧ l.eventName = toString off) ∧
    (∀ (p : BPFProg) (m : Module) (off : Nat) (ocp : Option Nat) (oev : Int)
        (lc : Option Nat) (lev : Int) (l : BPFLink) (m2 : Module),
      AttachKretprobeOnOffset p m off ocp oev lc lev = (.ok l, m2) →
      l.linkType = .Kretprobe ∧ l.eventName = toString off) ∧
    (∀ (p : BPFProg) (m : Module) (pid : Int) (path ap : String) (off : Nat)
        (ae : GoError) (lc : Option Nat) (ev : Int) (l : BPFLink)
        (m2 : Module),
      AttachUprobe p m pid path off (some ap) ae lc ev = (.ok l, m2) →
      l.linkType = .Uprobe ∧
      l.eventName = ap ++ ":" ++ toString pid ++ ":" ++ toString off) ∧
    (∀ (p : BPFProg) (m : Module) (pid : Int) (path ap : String) (off : Nat)
        (ae : GoError) (lc : Option Nat) (ev : Int) (l : BPFLink)
        (m2 : Module),
      AttachURetprobe p m pid path off (some ap) ae lc ev = (.ok l, m2) →
      l.linkType = .Uretprobe ∧
      l.eventName = ap ++ ":" ++ toString pid ++ ":" ++ toString off) ∧
    (∀ (p : BPFProg) (m : Module) (path : String) (fd : Int) (oe : GoError)
        (lc : Option Nat) (ev : Int) (l : BPFLink) (m2 : Module),
      AttachCgroup p m path fd oe lc ev = (.ok l, m2) →
      l.linkType = .Cgroup ∧
      l.eventName = "cgroup-" ++ p.name ++ "-" ++ dashedPath path) ∧
    (∀ (p : BPFProg) (m : Module) (path : String) (aty fd1 : Int)
        (oe1 : GoError) (ev fd2 : Int) (oe2 : GoError) (lr lev : Int)
        (l : BPFLink) (m2 : Module),
      AttachCgroupLegacy p m path aty fd1 oe1 none ev fd2 oe2 lr lev =
        (.ok l, m2) →
      l.linkType = .CgroupLegacy ∧
      l.legacy = some { attachType := aty, cgroupDir := path } ∧
      l.link = none ∧
      l.eventName = "cgroup-" ++ p.name ++ "-" ++ dashedPath path) ∧
    (∀ (p : BPFProg) (m : Module) (dev : String) (ir : Except GoError Int)
        (lc : Option Nat) (ev : Int) (l : BPFLink) (m2 : Module),
      AttachXDP p m dev ir lc ev = (.ok l, m2) →
      l.linkType = .XDP ∧ l.eventName = "xdp-" ++ p.name ++ "-" ++ dev) ∧
    (∀ (p : BPFProg) (m : Module) (cat nm : String) (lc : Option Nat)
        (ev : Int) (l : BPFLink) (m2 : Module),
      AttachTracepoint p m cat nm lc ev = (.ok l, m2) →
      l.linkType = .Tracepoint ∧ l.eventName = nm) ∧
    (∀ (p : BPFProg) (m : Module) (tp : String) (lc : Option Nat) (ev : Int)
        (l : BPFLink) (m2 : Module),
      AttachRawTracepoint p m tp lc ev = (.ok l, m2) →
      l.linkType = .RawTracepoint ∧ l.eventName = tp) ∧
    (∀ (p : BPFProg) (m : Module) (lc : Option Nat) (ev : Int) (l : BPFLink)
        (m2 : Module),
      AttachLSM p m lc ev = (.ok l, m2) → l.linkType = .LSM) ∧
    (∀ (p : BPFProg) (m : Module) (fd : Int) (lc : Option Nat) (ev : Int)
        (l : BPFLink) (m2 : Module),
      AttachPerfEvent p m fd lc ev = (.ok l, m2) →
      l.linkType = .PerfEvent) ∧
    (∀ (p : BPFProg) (m : Module) (path : String) (fd : Int) (oe : GoError)
        (lc : Option Nat) (ev : Int) (l : BPFLink) (m2 : Module),
      AttachNetns p m path fd oe lc ev = (.ok l, m2) →
      l.linkType = .Netns ∧
      l.eventName = "netns-" ++ p.name ++ "-" ++ dashedPath path) ∧
    (∀ (p : BPFProg) (m : Module) (io : IterOpts) (ocp : Option Nat)
        (oev : Int) (lc : Option Nat) (ev : Int) (l : BPFLink) (m2 : Module),
      AttachIter p m io ocp oev lc ev = (.ok l, m2) →
      l.linkType = .Iter ∧
      l.eventName = "iter-" ++ p.name ++ "-" ++ toString io.MapFd) ∧
    (∀ (p : BPFProg) (m : Module) (pid : Int) (bp pr nm : String)
        (lc : Option Nat) (ev : Int) (l : BPFLink) (m2 : Module),
      AttachUSDT p m pid bp pr nm lc ev = (.ok l, m2) →
      l.linkType = .USDT ∧
      l.eventName = bp ++ ":" ++ toString pid ++ ":" ++ pr ++ ":" ++ nm) ∧
    (∀ (p : BPFProg) (m : Module) (lc : Option Nat) (ev : Int) (l : BPFLink)
        (m2 : Module),
      AttachGeneric p m lc ev = (.ok l, m2) →
      l.linkType = .Tracing ∧ l.eventName = "tracing-" ++ p.name) ∧
    (∀ (p : BPFProg) (m : Module) (pid : Int) (path ap : String)
        (offsets cookies : List Nat) (ae : GoError) (lc : Option Nat)
        (ev : Int) (l : BPFLink) (m2 : Module),
      AttachUprobeMulti p m pid path offsets cookies (some ap) ae lc ev =
        (.ok l, m2) →
      l.linkType = .Uprobe ∧
      l.eventName = ap ++ ":" ++ toString pid ++ ":" ++ goUintSlice offsets) ∧
    (∀ (p : BPFProg) (m : Module) (pid : Int) (path ap : String)
        (offsets cookies : List Nat) (ae : GoError) (lc : Option Nat)
        (ev : Int) (l : BPFLink) (m2 : Module),
      AttachURetprobeMulti p m pid path offsets cookies (some ap) ae lc ev =
        (.ok l, m2) →
      l.linkType = .Uretprobe ∧
      l.eventName = ap ++ ":" ++ toString pid ++ ":" ++ goUintSlice offsets) := by
  refine ⟨?_, ?_, ?_, ?_, ?_, ?_, ?_, ?_, ?_, ?_, ?_, ?_, ?_, ?_, ?_, ?_,
    ?_, ?_, ?_⟩
  · intro p m sym ocp oev lc lev l m2 h
    obtain ⟨_, _, h3, h4⟩ := attachKprobeCommon_ok p m
      { symName := sym, symAddr := 0, isRet := false } ocp oev lc lev l m2 h
    exact ⟨h3, h4⟩
  · intro p m sym ocp oev lc lev l m2 h
    obtain ⟨_, _, h3, h4⟩ := attachKprobeCommon_ok p m
      { symName := sym, symAddr := 0, isRet := true } ocp oev lc lev l m2 h
    exact ⟨h3, h4⟩
  · intro p m off ocp oev lc lev l m2 h
    obtain ⟨_, _, h3, h4⟩ := attachKprobeCommon_ok p m
      { symName := "", symAddr := off, isRet := false } ocp oev lc lev l m2 h
    exact ⟨h3, by simpa using h4⟩
  · intro p m off ocp oev lc lev l m2 h
    obtain ⟨_, _, h3, h4⟩ := attachKprobeCommon_ok p m
      { symName := "", symAddr := off, isRet := true } ocp oev lc lev l m2 h
    exact ⟨h3, by simpa using h4⟩
  · intro p m pid path ap off ae lc ev l m2 h
    obtain ⟨_, _, h3, h4⟩ :=
      doAttachUprobe_ok p m false pid ap off lc ev l m2 h
    exact ⟨h3, h4⟩
  · intro p m pid path ap off ae lc ev l m2 h
    obtain ⟨_, _, h3, h4⟩ :=
      doAttachUprobe_ok p m true pid ap off lc ev l m2 h
    exact ⟨h3, h4⟩
  · intro p m path fd oe lc ev l m2 h
    obtain ⟨_, _, h3, h4⟩ := AttachCgroup_ok p m path fd oe lc ev l m2 h
    exact ⟨h3, h4⟩
  · intro p m path aty fd1 oe1 ev fd2 oe2 lr lev l m2 h
    obtain ⟨_, _, h3, h4, h5, h6⟩ := AttachCgroupLegacy_ok_legacy p m path
      aty fd1 oe1 ev fd2 oe2 lr lev l m2 h
    exact ⟨h3, h4, h6, h5⟩
  · intro p m dev ir lc ev l m2 h
    obtain ⟨_, _, h3, h4⟩ := AttachXDP_ok p m dev ir lc ev l m2 h
    exact ⟨h3, h4⟩
  · intro p m cat nm lc ev l m2 h
    obtain ⟨_, _, h3, h4⟩ := AttachTracepoint_ok p m cat nm lc ev l m2 h
    exact ⟨h3, h4⟩
  · intro p m tp lc ev l m2 h
    obtain ⟨_, _, h3, h4⟩ := AttachRawTracepoint_ok p m tp lc ev l m2 h
    exact ⟨h3, h4⟩
  · intro p m lc ev l m2 h
    exact (AttachLSM_ok p m lc ev l m2 h).2.2.1
  · intro p m fd lc ev l m2 h
    exact (AttachPerfEvent_ok p m fd lc ev l m2 h).2.2.1
  · intro p m path fd oe lc ev l m2 h
    obtain ⟨_, _, h3, h4⟩ := AttachNetns_ok p m path fd oe lc ev l m2 h
    exact ⟨h3, h4⟩
  · intro p m io ocp oev lc ev l m2 h
    obtain ⟨_, _, h3, h4⟩ := AttachIter_ok p m io ocp oev lc ev l m2 h
    exact ⟨h3, h4⟩
  · intro p m pid bp pr nm lc ev l m2 h
    obtain ⟨_, _, h3, h4⟩ := AttachUSDT_ok p m pid bp pr nm lc ev l m2 h
    exact ⟨h3, h4⟩
  · intro p m lc ev l m2 h
    obtain ⟨_, _, h3, h4⟩ := AttachGeneric_ok p m lc ev l m2 h
    exact ⟨h3, h4⟩
  · intro p m pid path ap offsets cookies ae lc ev l m2 h
    obtain ⟨_, _, h3, h4⟩ :=
      doAttachUprobeMulti_ok p m false pid ap offsets cookies lc ev l m2 h
    exact ⟨h3, h4⟩
  · intro p m pid path ap offsets cookies ae lc ev l m2 h
    obtain ⟨_, _, h3, h4⟩ :=
      doAttachUprobeMulti_ok p m true pid ap offsets cookies lc ev l m2 h
    exact ⟨h3, h4⟩

/-- Witness for C7 at concrete inputs: a kprobe link tagged `Kprobe` with the
symbol as event name, and the legacy cgroup fallback tagged `CgroupLegacy`
with its metadata. -/
theorem claim_C7_link_tags_witness :
    (sampleKprobeLink.linkType = .Kprobe ∧
      sampleKprobeLink.eventName =
        (if "sfunc" == "" then toString (0 : Nat) else "sfunc")) ∧
    (sampleLegacyLink.linkType = .CgroupLegacy ∧
      sampleLegacyLink.legacy =
        some { attachType := 1, cgroupDir := "/sys" } ∧
      sampleLegacyLink.link = none ∧
      sampleLegacyLink.eventName =
        "cgroup-" ++ sampleProg.name ++ "-" ++ dashedPath "/sys") := by
  obtain ⟨h1, _, _, _, _, _, _, h8, _⟩ := claim_C7_link_tags
  exact ⟨h1 sampleProg sampleModule "sfunc" (some 1) 0 (some 3) 0
           sampleKprobeLink { links := [sampleKprobeLink] } rfl,
         h8 sampleProg sampleModule "/sys" 1 3 (.errno 0) 13 3 (.errno 0) 0 0
           sampleLegacyLink sampleModule rfl⟩

end LibbpfgoSpec
